import Mathlib

/-!
Verification development for the vadumpcaps capability-dump tool
(src/vadumpcaps.c).  The streaming structured-output writer and the
capability-traversal engine are shallowly embedded: writer calls become a
`WOp` value, traversal functions become pure functions from a driver oracle
(the external libva capability-query interface) to a list of events
(writer output, driver calls, diagnostic-stream error reports).
-/

namespace Vadumpcaps

/-- Optional field tag, as passed to every writer function (vadumpcaps.c:122). -/
abbrev Tag := Option String

/-- One call to the streaming writer.  Constructors are named after the source
functions they embed (vadumpcaps.c:131-202). -/
inductive WOp where
  | start_array (tag : Tag)
  | end_array
  | start_object (tag : Tag)
  | end_object
  | print_boolean (tag : Tag) (value : Bool)
  | print_integer (tag : Tag) (value : Int)
  | print_double (tag : Tag) (text : String)
  | print_string (tag : Tag) (s : String)
deriving DecidableEq

/-- The tag argument of a writer call (end calls take none). -/
def tagOf : WOp → Tag
  | .start_array t => t
  | .end_array => none
  | .start_object t => t
  | .end_object => none
  | .print_boolean t _ => t
  | .print_integer t _ => t
  | .print_double t _ => t
  | .print_string t _ => t

/-- Mode-independent bytes of one writer call: the delimiter or value text
with its trailing separator, exactly as the printf calls at
vadumpcaps.c:135,144,152,161,169,177,185,193-200 emit it.  `print_double`
carries the already-%lg-formatted text (formatting is done by the C library,
outside this model). -/
def payloadChars : WOp → List Char
  | .start_array _ => ['[']
  | .end_array => [']', ',']
  | .start_object _ => ['\x7b']
  | .end_object => ['\x7d', ',']
  | .print_boolean _ b => (if b then "true" else "false").data ++ [',']
  | .print_integer _ v => (toString v).data ++ [',']
  | .print_double _ s => s.data ++ [',']
  | .print_string _ s => '"' :: s.data ++ ['"', ',']

/-- Indentation emitted by print_indent (vadumpcaps.c:106-114): nothing in
compact mode, otherwise indent_depth * indent_size spaces (a non-positive
depth prints nothing, as the C for loop does). -/
def indentChars (pretty : Bool) (size : Nat) (d : Int) : List Char :=
  if pretty then List.replicate (d.toNat * size) ' ' else []

/-- Newline emitted by print_newline (vadumpcaps.c:116-120). -/
def newlineChars (pretty : Bool) : List Char :=
  if pretty then ['\n'] else []

/-- Tag text emitted by print_tag (vadumpcaps.c:122-129): nothing for a null
tag, otherwise a quoted tag, a colon, and one space in pretty mode only. -/
def tagChars (pretty : Bool) : Tag → List Char
  | none => []
  | some t => '"' :: t.data ++ [':'] ++ (if pretty then [' '] else [])

/-- Depth after one writer call: start calls increment indent_depth, end calls
decrement it, scalar prints leave it unchanged (vadumpcaps.c:131-202). -/
def wopDepthNext (d : Int) : WOp → Int
  | .start_array _ => d + 1
  | .start_object _ => d + 1
  | .end_array => d - 1
  | .end_object => d - 1
  | _ => d

/-- Depth used by print_indent for one call: end calls decrement before
printing the indent (vadumpcaps.c:140-146,157-163), all others indent at the
current depth. -/
def wopLineDepth (d : Int) : WOp → Int
  | .end_array => d - 1
  | .end_object => d - 1
  | _ => d

/-- Bytes of one writer call: indent, tag, payload, newline, in the order the
source emits them. -/
def wopChars (pretty : Bool) (size : Nat) (d : Int) (op : WOp) : List Char :=
  indentChars pretty size (wopLineDepth d op) ++ tagChars pretty (tagOf op)
    ++ payloadChars op ++ newlineChars pretty

/-- Run a sequence of writer calls from depth d: total output bytes and final
depth. -/
def runW (pretty : Bool) (size : Nat) : Int → List WOp → List Char × Int
  | d, [] => ([], d)
  | d, op :: rest =>
      let r := runW pretty size (wopDepthNext d op) rest
      (wopChars pretty size d op ++ r.1, r.2)

/-- Depth change of one writer call. -/
def wopDelta : WOp → Int
  | .start_array _ => 1
  | .start_object _ => 1
  | .end_array => -1
  | .end_object => -1
  | _ => 0

/-- A scalar print (print_boolean/print_integer/print_double/print_string). -/
def isScalarOp : WOp → Bool
  | .print_boolean _ _ => true
  | .print_integer _ _ => true
  | .print_double _ _ => true
  | .print_string _ _ => true
  | _ => false

/-- Check that a sequence of writer calls is balanced: the running depth
change never goes negative and returns to zero at the end. -/
def balCheck : Int → List WOp → Bool
  | c, [] => c == 0
  | c, op :: rest => decide (0 ≤ c + wopDelta op) && balCheck (c + wopDelta op) rest

/-- A balanced sequence of start/end/scalar writer calls. -/
abbrev Balanced (ops : List WOp) : Prop := balCheck 0 ops = true

/-- The lines of a pretty-mode run: for each call, the depth its line is
indented at, paired with the call. -/
def linesW : Int → List WOp → List (Int × WOp)
  | _, [] => []
  | d, op :: rest => (wopLineDepth d op, op) :: linesW (wopDepthNext d op) rest

/-- The bytes of one pretty-mode line (without its newline). -/
def lineChars (size : Nat) (p : Int × WOp) : List Char :=
  indentChars true size p.1 ++ tagChars true (tagOf p.2) ++ payloadChars p.2

/-- Number of leading space characters. -/
def leadingSpaces (l : List Char) : Nat :=
  (l.takeWhile (fun c => c = ' ')).length

/-- A writer call whose tag-plus-payload text does not itself begin with a
space character (a scalar printed with text beginning in a space would add to
the leading spaces of its line, in C exactly as here). -/
def lineHeadOk (op : WOp) : Bool :=
  match tagChars true (tagOf op) ++ payloadChars op with
  | [] => false
  | c :: _ => c != ' '

/-- Drop every space and newline byte. -/
def stripWS (l : List Char) : List Char :=
  l.filter (fun c => !(c == ' ' || c == '\n'))

/-- A Node of the capability document: a scalar, an ordered array, or an
ordered object, optionally tagged with a field name (spec data model; the
source materializes nodes directly through writer calls). -/
inductive Node where
  | scalarB (tag : Tag) (value : Bool)
  | scalarI (tag : Tag) (value : Int)
  | scalarD (tag : Tag) (text : String)
  | scalarS (tag : Tag) (s : String)
  | arr (tag : Tag) (elems : List Node)
  | obj (tag : Tag) (fields : List Node)

mutual

/-- The writer calls that materialize one Node, as the traversal engine
emits them: start delimiter, children, end delimiter. -/
def nodeOps : Node → List WOp
  | .scalarB t b => [.print_boolean t b]
  | .scalarI t v => [.print_integer t v]
  | .scalarD t s => [.print_double t s]
  | .scalarS t s => [.print_string t s]
  | .arr t es => .start_array t :: nodeListOps es ++ [.end_array]
  | .obj t fs => .start_object t :: nodeListOps fs ++ [.end_object]

/-- Writer calls of a list of sibling Nodes, in order. -/
def nodeListOps : List Node → List WOp
  | [] => []
  | n :: rest => nodeOps n ++ nodeListOps rest

end

/-! Writer lemmas. -/

theorem runW_cons (pretty : Bool) (size : Nat) (d : Int) (op : WOp)
    (rest : List WOp) :
    runW pretty size d (op :: rest)
      = ((wopChars pretty size d op
            ++ (runW pretty size (wopDepthNext d op) rest).1),
         (runW pretty size (wopDepthNext d op) rest).2) := by
  rfl

theorem wopDepthNext_eq_add (d : Int) (op : WOp) :
    wopDepthNext d op = d + wopDelta op := by
  cases op <;> simp [wopDepthNext, wopDelta] <;> omega

theorem runW_depth (pretty : Bool) (size : Nat) (ops : List WOp) :
    ∀ d : Int, (runW pretty size d ops).2 = d + (ops.map wopDelta).sum := by
  induction ops with
  | nil => intro d; simp [runW]
  | cons op rest ih =>
      intro d
      rw [runW_cons]
      simp only [List.map_cons, List.sum_cons]
      rw [ih (wopDepthNext d op), wopDepthNext_eq_add]
      ring

theorem balCheck_sum (ops : List WOp) :
    ∀ c : Int, balCheck c ops = true → c + (ops.map wopDelta).sum = 0 := by
  induction ops with
  | nil =>
      intro c h
      simp [balCheck] at h
      simp [h]
  | cons op rest ih =>
      intro c h
      simp only [balCheck, Bool.and_eq_true] at h
      have := ih (c + wopDelta op) h.2
      simp only [List.map_cons, List.sum_cons]
      omega

theorem runW_flat (size : Nat) (ops : List WOp) :
    ∀ d : Int, (runW true size d ops).1
      = (linesW d ops).flatMap (fun p => lineChars size p ++ ['\n']) := by
  induction ops with
  | nil => intro d; simp [runW, linesW]
  | cons op rest ih =>
      intro d
      rw [runW_cons]
      simp only [linesW, List.flatMap_cons]
      rw [← ih (wopDepthNext d op)]
      simp [wopChars, lineChars, newlineChars]

theorem linesW_mem (ops : List WOp) :
    ∀ (d : Int) (p : Int × WOp), p ∈ linesW d ops → p.2 ∈ ops := by
  induction ops with
  | nil => intro d p h; simp [linesW] at h
  | cons op rest ih =>
      intro d p h
      simp only [linesW, List.mem_cons] at h
      rcases h with h | h
      · subst h; simp
      · exact List.mem_cons_of_mem _ (ih _ p h)

theorem leadingSpaces_indent (n : Nat) (c : Char) (t : List Char)
    (hc : c ≠ ' ') :
    leadingSpaces (List.replicate n ' ' ++ c :: t) = n := by
  unfold leadingSpaces
  induction n with
  | zero => simp [List.takeWhile, hc]
  | succ m ih =>
      simp only [List.replicate_succ, List.cons_append, List.takeWhile]
      simpa using ih

theorem indentChars_true (size : Nat) (d : Int) :
    indentChars true size d = List.replicate (d.toNat * size) ' ' := rfl

theorem leadingSpaces_line (size : Nat) (d : Int) (op : WOp)
    (hok : lineHeadOk op = true) :
    leadingSpaces (lineChars size (d, op)) = d.toNat * size := by
  unfold lineHeadOk at hok
  rcases hrest : tagChars true (tagOf op) ++ payloadChars op with _ | ⟨c, t⟩
  · rw [hrest] at hok; simp at hok
  · rw [hrest] at hok
    simp only [bne_iff_ne, ne_eq] at hok
    have hline : lineChars size (d, op)
        = List.replicate (d.toNat * size) ' ' ++ (c :: t) := by
      unfold lineChars
      rw [indentChars_true, List.append_assoc, hrest]
    rw [hline]
    exact leadingSpaces_indent _ c t hok

theorem stripWS_append (a b : List Char) :
    stripWS (a ++ b) = stripWS a ++ stripWS b := by
  simp [stripWS, List.filter_append]

theorem stripWS_replicate_space (n : Nat) :
    stripWS (List.replicate n ' ') = [] := by
  induction n with
  | zero => rfl
  | succ m ih =>
      simp only [List.replicate_succ, stripWS, List.filter] at ih ⊢
      exact ih

theorem stripWS_indent (pretty : Bool) (s : Nat) (d : Int) :
    stripWS (indentChars pretty s d) = [] := by
  cases pretty
  · rfl
  · exact stripWS_replicate_space _

theorem stripWS_newline (pretty : Bool) : stripWS (newlineChars pretty) = [] := by
  cases pretty <;> rfl

theorem stripWS_tag (t : Tag) :
    stripWS (tagChars true t) = stripWS (tagChars false t) := by
  cases t with
  | none => rfl
  | some s =>
      show stripWS ('"' :: (s.data ++ [':'] ++ [' ']))
        = stripWS ('"' :: (s.data ++ [':'] ++ []))
      simp [stripWS, List.filter_append]

theorem stripWS_wopChars (s : Nat) (d1 d2 : Int) (op : WOp) :
    stripWS (wopChars true s d1 op) = stripWS (wopChars false s d2 op) := by
  unfold wopChars
  simp only [stripWS_append, stripWS_indent, stripWS_newline, stripWS_tag,
    List.nil_append, List.append_nil]

theorem stripWS_runW (s : Nat) (ops : List WOp) :
    ∀ d1 d2 : Int,
      stripWS (runW true s d1 ops).1 = stripWS (runW false s d2 ops).1 := by
  induction ops with
  | nil => intro d1 d2; rfl
  | cons op rest ih =>
      intro d1 d2
      rw [runW_cons, runW_cons]
      simp only [stripWS_append]
      rw [stripWS_wopChars s d1 d2 op, ih]

/-- Claim C8: for every indentation width, after any balanced sequence of
start_array/end_array/start_object/end_object (and scalar) calls the writer's
depth counter equals its pre-sequence value; the pretty output decomposes into
one line per call, and each line begins with exactly depth-at-that-line times
indent-width spaces; scalar prints leave the depth unchanged. -/
theorem writer_depth_and_indent (size : Nat) (d : Int) (ops : List WOp)
    (hbal : Balanced ops) (hok : ops.all lineHeadOk = true) :
    (runW true size d ops).2 = d ∧
    (runW true size d ops).1
      = (linesW d ops).flatMap (fun p => lineChars size p ++ ['\n']) ∧
    (∀ p ∈ linesW d ops, leadingSpaces (lineChars size p) = p.1.toNat * size) ∧
    (∀ (d2 : Int) (op : WOp), isScalarOp op = true →
        (runW true size d2 [op]).2 = d2) := by
  refine ⟨?_, runW_flat size ops d, ?_, ?_⟩
  · rw [runW_depth]
    have := balCheck_sum ops 0 hbal
    omega
  · intro p hp
    obtain ⟨pd, pop⟩ := p
    have hmem := linesW_mem ops d (pd, pop) hp
    rw [List.all_eq_true] at hok
    exact leadingSpaces_line size pd pop (hok _ hmem)
  · intro d2 op hs
    cases op <;> first
      | rfl
      | exact absurd hs (by simp [isScalarOp])

/-- Concrete balanced sequence of writer calls used as a witness. -/
def c8ops : List WOp :=
  [.start_object none, .print_integer (some "a") 3,
   .start_array (some "b"), .print_string none "hi", .end_array,
   .end_object]

theorem writer_depth_and_indent_witness :
    Balanced c8ops ∧ c8ops.all lineHeadOk = true ∧
      (runW true 4 0 c8ops).2 = 0 :=
  ⟨by decide, by decide,
    (writer_depth_and_indent 4 0 c8ops (by decide) (by decide)).1⟩

/-- Claim C9: for every Node tree, the bytes produced in compact mode agree
with the bytes produced in pretty mode once all space and newline characters
are stripped: the delimiter, separator, tag and value bytes are independent
of the pretty/compact toggle. -/
theorem node_render_mode_independent (size : Nat) (d : Int) (n : Node) :
    stripWS (runW true size d (nodeOps n)).1
      = stripWS (runW false size d (nodeOps n)).1 :=
  stripWS_runW size (nodeOps n) d d

/-! Selection mask and libva constants.  Numeric values of the libva
enumerants and flag bits are those of the headers the source compiles
against; the claims depend on the structure of the tables and dispatches,
not on the particular numbers. -/

/-- Section bit indices of the selection mask (vadumpcaps.c:87-98). -/
def DUMP_PROFILES : Nat := 0

def DUMP_ENTRYPOINTS : Nat := 1

def DUMP_ATTRIBUTES : Nat := 2

def DUMP_SURFACE_FORMATS : Nat := 3

def DUMP_FILTERS : Nat := 4

def DUMP_FILTER_CAPS : Nat := 5

def DUMP_PIPELINE_CAPS : Nat := 6

def DUMP_IMAGE_FORMATS : Nat := 7

def DUMP_SUBPICTURE_FORMATS : Nat := 8

def DUMP_MAX : Nat := 9

/-- The DUMP(name) mask test (vadumpcaps.c:100). -/
def DUMP (mask : Nat) (bit : Nat) : Bool := mask.testBit bit

/-- An empty selection mask enables all sections (vadumpcaps.c:2011-2012). -/
def normalizeMask (m : Nat) : Nat := if m = 0 then 2 ^ DUMP_MAX - 1 else m

def VA_STATUS_SUCCESS : Int := 0

def VAProfileNone : Int := -1

def VAEntrypointVideoProc : Int := 10

def VA_ATTRIB_NOT_SUPPORTED : Nat := 0x80000000

def VAConfigAttribRTFormat : Nat := 0

def VAConfigAttribRateControl : Nat := 5

/-- Terminator of the VAConfigAttribType enum: the number of attribute types
scanned in one batch (vadumpcaps.c:539-545); only its role as loop bound
matters. -/
def VAConfigAttribTypeMax : Nat := 52

def VAProcFilterNone : Int := 0

def VAProcFilterNoiseReduction : Int := 1

def VAProcFilterDeinterlacing : Int := 2

def VAProcFilterSharpening : Int := 3

def VAProcFilterColorBalance : Int := 4

def VAProcFilterSkinToneEnhancement : Int := 5

def VAProcFilterTotalColorCorrection : Int := 6

def VAProcFilterHVSNoiseReduction : Int := 7

def VAProcFilterHighDynamicRangeToneMapping : Int := 8

def VAProcFilter3DLUT : Int := 9

def VAProcDeinterlacingNone : Int := 0

def VAProcHighDynamicRangeMetadataHDR10 : Int := 1

def VASurfaceAttribPixelFormat : Nat := 1

def VASurfaceAttribMinWidth : Nat := 2

def VASurfaceAttribMaxWidth : Nat := 3

def VASurfaceAttribMinHeight : Nat := 4

def VASurfaceAttribMaxHeight : Nat := 5

def VASurfaceAttribMemoryType : Nat := 6

def VASurfaceAttribExternalBufferDescriptor : Nat := 7

def VASurfaceAttribUsageHint : Nat := 8

def VASurfaceAttribDRMFormatModifiers : Nat := 9

def VA_LSB_FIRST : Nat := 1

def VA_MSB_FIRST : Nat := 2

/-! Static enumerant name tables (vadumpcaps.c:204-533), kept in source
declaration order; lookup is a linear first-match scan. -/

/-- Entry-point name table (vadumpcaps.c:204-232). -/
def entrypoints : List (Int × String × String) :=
  [(1, "VLD", "Decode Slice"),
   (2, "IZZ", "(Legacy) ZigZag Scan"),
   (3, "IDCT", "(Legacy) Inverse DCT"),
   (4, "MoComp", "(Legacy) Motion Compensation"),
   (5, "Deblocking", "(Legacy) Deblocking"),
   (6, "EncSlice", "Encode Slice"),
   (7, "EncPicture", "Encode Picture"),
   (8, "EncSliceLP", "Encode Slice (Low Power)"),
   (10, "VideoProc", "Video Processing"),
   (11, "FEI", "Flexible Encode"),
   (12, "Stats", "Stats"),
   (13, "ProtectedTEEComm", "Communicate with Trusted Execution Environment"),
   (14, "ProtectedContent", "Decrypt Protected Content")]

/-- Profile name table (vadumpcaps.c:234-294). -/
def profiles : List (Int × String × String) :=
  [(-1, "None", "Video Processing"),
   (0, "MPEG2Simple", "MPEG-2 Simple Profile"),
   (1, "MPEG2Main", "MPEG-2 Main Profile"),
   (2, "MPEG4Simple", "MPEG-4 part 2 Simple Profile"),
   (3, "MPEG4AdvancedSimple", "MPEG-4 part 2 Advanced Simple Profile"),
   (4, "MPEG4Main", "MPEG-4 part 2 Main Profile"),
   (5, "H264Baseline", "H.264 / MPEG-4 part 10 (AVC) Baseline Profile"),
   (6, "H264Main", "H.264 / MPEG-4 part 10 (AVC) Main Profile"),
   (7, "H264High", "H.264 / MPEG-4 part 10 (AVC) High Profile"),
   (8, "VC1Simple", "VC-1 / SMPTE 421M / WMV 9 / WMV3 Simple Profile"),
   (9, "VC1Main", "VC-1 / SMPTE 421M / WMV 9 / WMV3 Main Profile"),
   (10, "VC1Advanced", "VC-1 / SMPTE 421M / WMV 9 / WMV3 Advanced Profile"),
   (11, "H263Baseline", "H.263"),
   (12, "JPEGBaseline", "JPEG"),
   (13, "H264ConstrainedBaseline",
    "H.264 / MPEG-4 part 10 (AVC) Constrained Baseline Profile"),
   (14, "VP8Version0_3", "VP8 profile versions 0-3"),
   (15, "H264MultiviewHigh", "H.264 / MPEG-4 part 10 (AVC) Multiview High Profile"),
   (16, "H264StereoHigh", "H.264 / MPEG-4 part 10 (AVC) Stereo High Profile"),
   (17, "HEVCMain", "H.265 / MPEG-H part 2 (HEVC) Main Profile"),
   (18, "HEVCMain10", "H.265 / MPEG-H part 2 (HEVC) Main 10 Profile"),
   (19, "VP9Profile0", "VP9 profile 0"),
   (20, "VP9Profile1", "VP9 profile 1"),
   (21, "VP9Profile2", "VP9 profile 2"),
   (22, "VP9Profile3", "VP9 profile 3"),
   (23, "HEVCMain12", "H.265 / MPEG-H part 2 (HEVC) RExt Main 12 Profile"),
   (24, "HEVCMain422_10", "H.265 / MPEG-H part 2 (HEVC) RExt Main 4:2:2 10 Profile"),
   (25, "HEVCMain422_12", "H.265 / MPEG-H part 2 (HEVC) RExt Main 4:2:2 12 Profile"),
   (26, "HEVCMain444", "H.265 / MPEG-H part 2 (HEVC) RExt Main 4:4:4 Profile"),
   (27, "HEVCMain444_10", "H.265 / MPEG-H part 2 (HEVC) RExt Main 4:4:4 10 Profile"),
   (28, "HEVCMain444_12", "H.265 / MPEG-H part 2 (HEVC) RExt Main 4:4:4 12 Profile"),
   (29, "HEVCSccMain", "H.265 / MPEG-H part 2 (HEVC) SCC Screen-Extended Main Profile"),
   (30, "HEVCSccMain10", "H.265 / MPEG-H part 2 (HEVC) SCC Screen-Extended Main 10 Profile"),
   (31, "HEVCSccMain444", "H.265 / MPEG-H part 2 (HEVC) SCC Screen-Extended Main 4:4:4 Profile"),
   (32, "AV1Profile0", "AV1 Main Profile"),
   (33, "AV1Profile1", "AV1 High Profile"),
   (34, "HEVCSccMain444_10", "H.265 / MPEG-H part 2 (HEVC) SCC Screen-Extended Main 4:4:4 10 Profile")]

/-- Pixel-format-class bitmask table (vadumpcaps.c:296-325). -/
def rt_format_types : List (Nat × String) :=
  [(0x1, "YUV420"), (0x2, "YUV422"), (0x4, "YUV444"), (0x8, "YUV411"),
   (0x10, "YUV400"), (0x100, "YUV420_10"), (0x200, "YUV422_10"),
   (0x400, "YUV444_10"), (0x1000, "YUV420_12"), (0x2000, "YUV422_12"),
   (0x4000, "YUV444_12"), (0x10000, "RGB16"), (0x20000, "RGB32"),
   (0x100000, "RGBP"), (0x200000, "RGB32_10")]

/-- Rate-control bits tested by the AV() chain at vadumpcaps.c:577-599, in
emission order (the chain of ifs is a bitmask table scan). -/
def rc_modes : List (Nat × String) :=
  [(0x1, "NONE"), (0x2, "CBR"), (0x4, "VBR"), (0x8, "VCM"), (0x10, "CQP"),
   (0x20, "VBR_CONSTRAINED"), (0x40, "ICQ"), (0x80, "MB"), (0x100, "CFS"),
   (0x200, "PARALLEL"), (0x400, "QVBR"), (0x800, "AVBR"), (0x1000, "TCBRC")]

/-- Filter-type name table (vadumpcaps.c:327-353). -/
def filters : List (Int × String) :=
  [(0, "None"), (1, "NoiseReduction"), (2, "Deinterlacing"),
   (3, "Sharpening"), (4, "ColorBalance"), (5, "SkinToneEnhancement"),
   (6, "TotalColorCorrection"), (7, "HVSNoiseReduction"),
   (8, "HighDynamicRangeToneMapping"), (9, "3DLUT")]

/-- Pipeline-flag bitmask table (vadumpcaps.c:355-362). -/
def proc_pipeline_flags : List (Nat × String) :=
  [(0x1, "SUBPICTURES"), (0x2, "FAST")]

/-- Filter-flag bitmask table (vadumpcaps.c:363-382). -/
def proc_filter_flags : List (Nat × String) :=
  [(0x1, "PROC_FILTER_MANDATORY"), (0x2, "FRAME_PICTURE"),
   (0x4, "TOP_FIELD"), (0x8, "BOTTOM_FIELD"), (0x10, "SRC_BT601"),
   (0x20, "SRC_BT709"), (0x40, "SRC_SMPTE_240"),
   (0x80, "FILTER_SCALING_DEFAULT"), (0x100, "FILTER_SCALING_FAST"),
   (0x200, "FILTER_SCALING_HQ"), (0x400, "FILTER_SCALING_NL_ANAMORPHIC"),
   (0x800, "FILTER_INTERPOLATION_NEAREST_NEIGHBOR"),
   (0x1000, "FILTER_INTERPOLATION_BILINEAR"),
   (0x2000, "FILTER_INTERPOLATION_ADVANCED")]

/-- Deinterlacer-type name table (vadumpcaps.c:384-395). -/
def deinterlacer_types : List (Int × String) :=
  [(0, "None"), (1, "Bob"), (2, "Weave"), (3, "MotionAdaptive"),
   (4, "MotionCompensated")]

/-- Colour-balance-type name table (vadumpcaps.c:397-411). -/
def colour_balance_types : List (Int × String) :=
  [(0, "None"), (1, "Hue"), (2, "Saturation"), (3, "Brightness"),
   (4, "Contrast"), (5, "AutoSaturation"), (6, "AutoBrightness"),
   (7, "AutoContrast")]

/-- Total-colour-correction-type name table (vadumpcaps.c:413-428). -/
def total_colour_correction_types : List (Int × String) :=
  [(0, "None"), (1, "Red"), (2, "Green"), (3, "Blue"), (4, "Cyan"),
   (5, "Magenta"), (6, "Yellow")]

/-- Colour-standard name table (vadumpcaps.c:430-451). -/
def colour_types : List (Int × String) :=
  [(0, "None"), (1, "BT601"), (2, "BT709"), (3, "BT470M"), (4, "BT470BG"),
   (5, "SMPTE170M"), (6, "SMPTE240M"), (7, "GenericFilm"), (8, "SRGB"),
   (9, "STRGB"), (10, "XVYCC601"), (11, "XVYCC709"), (12, "BT2020")]

/-- Rotation table (vadumpcaps.c:453-463); entries are shift amounts, the
pipeline pass tests flags against 1 shifted by the entry. -/
def rotation_types : List (Nat × String) :=
  [(0, "NONE"), (1, "90"), (2, "180"), (3, "270")]

/-- Blend table (vadumpcaps.c:465-475); entries are shift amounts. -/
def blend_types : List (Nat × String) :=
  [(1, "GLOBAL_ALPHA"), (3, "PREMULTIPLIED_ALPHA"), (4, "LUMA_KEY")]

/-- Mirror table (vadumpcaps.c:477-487); entries are shift amounts. -/
def mirror_types : List (Nat × String) :=
  [(0, "NONE"), (1, "HORIZONTAL"), (2, "VERTICAL")]

/-- HDR metadata-type name table (vadumpcaps.c:489-498). -/
def hdr_metadata_types : List (Int × String) :=
  [(0, "None"), (1, "HDR10")]

/-- Tone-mapping flag bitmask table (vadumpcaps.c:500-510). -/
def tone_mapping_types : List (Nat × String) :=
  [(0x1, "HDR_TO_HDR"), (0x2, "HDR_TO_SDR"), (0x4, "HDR_TO_EDR"),
   (0x8, "SDR_TO_HDR")]

/-- 3D LUT channel-mapping bitmask table (vadumpcaps.c:513-524). -/
def tdlut_channel_types : List (Nat × String) :=
  [(0x1, "RGB_RGB"), (0x2, "YUV_RGB"), (0x4, "VUY_RGB")]

/-- Subpicture flag bits (vadumpcaps.c:1922-1929). -/
def subpicture_flags : List (Nat × String) :=
  [(0x1, "CHROMA_KEYING"), (0x2, "GLOBAL_ALPHA"),
   (0x4, "DESTINATION_IS_SCREEN_COORD")]

/-- Linear first-match scan of a name table (the j-indexed lookup loops used
throughout the source, e.g. vadumpcaps.c:1158-1161). -/
def lookupName : List (Int × String) → Int → Option String
  | [], _ => none
  | e :: rest, x => if e.1 = x then some e.2 else lookupName rest x

/-- Linear first-match scan of a name-and-description table
(vadumpcaps.c:1778-1781, 1828-1831). -/
def lookupNameDesc : List (Int × String × String) → Int → Option (String × String)
  | [], _ => none
  | e :: rest, x => if e.1 = x then some e.2 else lookupNameDesc rest x

/-- The bitmask decode loop (e.g. vadumpcaps.c:567-570): scan the table in
declaration order, collecting the names of entries whose bit is set in v. -/
def bitmaskNames : List (Nat × String) → Nat → List String
  | [], _ => []
  | e :: rest, v =>
      if v &&& e.1 ≠ 0 then e.2 :: bitmaskNames rest v
      else bitmaskNames rest v

/-- Shifted-bit variant used for rotation/blend/mirror flags
(vadumpcaps.c:1436-1454): the table entry is a shift amount. -/
def bitmaskShiftNames : List (Nat × String) → Nat → List String
  | [], _ => []
  | e :: rest, v =>
      if v &&& (2 ^ e.1) ≠ 0 then e.2 :: bitmaskShiftNames rest v
      else bitmaskShiftNames rest v

/-! The traversal engine.  Every libva call is recorded as an event; the
external driver is a fixed-function oracle supplying each call's result. -/

/-- One call into the external capability-query interface, with the
arguments the source passes that are relevant to the claims. -/
inductive VACall where
  | maxNumProfiles
  | queryConfigProfiles
  | maxNumEntrypoints
  | queryConfigEntrypoints (profile : Int)
  | getConfigAttributes (profile : Int) (entrypoint : Int)
  | createConfig (profile : Int) (entrypoint : Int) (rt : Nat)
  | destroyConfig
  | querySurfaceAttributesCount (rt : Nat)
  | querySurfaceAttributesList (rt : Nat)
  | createContext
  | destroyContext
  | queryVideoProcFilters
  | queryVideoProcFilterCaps (filter : Int)
  | createBuffer (filter : Int)
  | destroyBuffer
  | queryVideoProcPipelineCaps (nbFilterBuffers : Nat)
  | maxNumImageFormats
  | queryImageFormats
  | maxNumSubpictureFormats
  | querySubpictureFormats
  | queryVendorString
deriving DecidableEq

/-- One event of a traversal run: a writer call, a driver call, or an
error_vas report to the diagnostic stream carrying the operation
description, the numeric status and the status description
(vadumpcaps.c:77-85). -/
inductive Ev where
  | op (w : WOp)
  | call (c : VACall)
  | err (desc : String) (status : Int) (statusStr : String)
deriving DecidableEq

/-- One VASurfaceAttrib entry as returned by the surface-attribute query:
generic type and integer value, plus the pointed-to modifier list for the
DRMFormatModifiers case. -/
structure SurfaceAttr where
  type : Nat
  value : Int
  modifiers : List Int := []
deriving DecidableEq

/-- A VAProcFilterValueRange; the four doubles are carried as their
%lg-formatted text, since double formatting happens in the C library. -/
structure FRange where
  min_value : String := "0"
  max_value : String := "0"
  default_value : String := "0"
  step : String := "0"
deriving DecidableEq

/-- A VAProcFilterCap3DLUT entry (lut_stride is the 3-element array). -/
structure LutCap where
  lut_size : Int
  lut_stride : List Int
  bit_depth : Int
  num_channel : Int
  channel_mapping : Nat
deriving DecidableEq

/-- The VAProcPipelineCaps fields the source prints
(vadumpcaps.c:1406-1481). -/
structure PipeCaps where
  pipeline_flags : Nat := 0
  filter_flags : Nat := 0
  num_forward_references : Int := 0
  num_backward_references : Int := 0
  input_color_standards : List Int := []
  output_color_standards : List Int := []
  rotation_flags : Nat := 0
  blend_flags : Nat := 0
  mirror_flags : Nat := 0
  num_additional_outputs : Int := 0
  input_pixel_formats : List Int := []
  output_pixel_formats : List Int := []
  max_input_width : Int := 0
  max_input_height : Int := 0
  min_input_width : Int := 0
  min_input_height : Int := 0
  max_output_width : Int := 0
  max_output_height : Int := 0
  min_output_width : Int := 0
  min_output_height : Int := 0
deriving DecidableEq

/-- A VAImageFormat entry. -/
structure ImageFormat where
  fourcc : Int
  byte_order : Nat := 1
  bits_per_pixel : Int := 0
  depth : Int := 0
  red_mask : Int := 0
  green_mask : Int := 0
  blue_mask : Int := 0
  alpha_mask : Int := 0
deriving DecidableEq

/-- The external driver as a fixed-function oracle: each field gives the
status (and data) one libva call returns.  List-returning calls follow the
count-then-fill pattern collapsed into one result; errorStr is vaErrorStr. -/
structure Driver where
  errorStr : Int → String := fun s => "status " ++ toString s
  vendorString : Option String := some "test driver"
  versionMajor : Int := 1
  versionMinor : Int := 0
  queryConfigProfiles : Int × List Int := (0, [])
  queryConfigEntrypoints : Int → Int × List Int := fun _ => (0, [])
  getConfigAttributes : Int → Int → Int × (Nat → Nat) :=
    fun _ _ => (0, fun _ => VA_ATTRIB_NOT_SUPPORTED)
  createConfig : Int → Int → Nat → Int := fun _ _ _ => 0
  querySurfaceAttributesCount : Nat → Int := fun _ => 0
  querySurfaceAttributesList : Nat → Int × List SurfaceAttr := fun _ => (0, [])
  createContext : Int := 0
  queryVideoProcFilters : Int × List Int := (0, [])
  queryFilterCapsDeinterlacing : Int × List Int := (0, [])
  queryFilterCapsColorBalance : Int × List (Int × FRange) := (0, [])
  queryFilterCapsTCC : Int × List (Int × FRange) := (0, [])
  queryFilterCapsHDR : Int × List (Int × Nat) := (0, [])
  queryFilterCapsLUT : Int × List LutCap := (0, [])
  queryFilterCapsDefault : Int → Int × Nat × FRange := fun _ => (0, 0, {})
  createBuffer : Int → Int := fun _ => 0
  queryVideoProcPipelineCaps : Nat → Int × PipeCaps := fun _ => (0, {})
  maxNumImageFormats : Nat := 0
  queryImageFormats : Int × List ImageFormat := (0, [])
  maxNumSubpictureFormats : Nat := 0
  querySubpictureFormats : Int × List (ImageFormat × Nat) := (0, [])

/-- An error_vas report (vadumpcaps.c:77-85): the operation description, the
numeric status, and the vaErrorStr status description. -/
def errEv (drv : Driver) (desc : String) (vas : Int) : Ev :=
  .err desc vas (drv.errorStr vas)

/-- The "%.4s" rendering of a fourcc stored in a little-endian 32-bit value
(vadumpcaps.c:1142,1460-1465,1865): up to four bytes as characters,
stopping at a NUL byte. -/
def fourccChars (v : Nat) : List Char :=
  ([v % 256, v / 256 % 256, v / 65536 % 256, v / 16777216 % 256].takeWhile
    (fun b => b ≠ 0)).map Char.ofNat

/-- Fourcc text of an integer value. -/
def fourccStr (v : Int) : String := String.mk (fourccChars v.toNat)

/-- One element of dump_colour_standards (vadumpcaps.c:1157-1172): numeric
type plus the table name, or the explicit name "unknown" when the code is
absent from the table. -/
def colour_standard_entry (t : Int) : List Ev :=
  [.op (.start_object none), .op (.print_integer (some "type") t)]
  ++ (match lookupName colour_types t with
      | some nm => [Ev.op (.print_string (some "name") nm)]
      | none => [Ev.op (.print_string (some "name") "unknown")])
  ++ [.op .end_object]

/-- dump_colour_standards (vadumpcaps.c:1154-1173). -/
def dump_colour_standards (types : List Int) : List Ev :=
  types.flatMap colour_standard_entry

/-- One switch arm of dump_config_attributes (vadumpcaps.c:561-1008).  The
RTFormat case (562-573), the RateControl case (574-602) and the default
"unknown" case (1000-1007) are modelled in full.  The remaining recognized
per-type decoder cases (DecSliceMode through EncHEVCBlockSizes,
vadumpcaps.c:603-999) print attribute-local scalar/bitmask/struct output of
the same three shapes, never touch the rt_formats out-parameter and never
call the driver; no claim depends on their bodies, so they are elided and
this model's default arm also fires for them.  Claim theorems evaluate this
dispatch only at types 0 and 5 and at types the source also routes to its
default arm (the va.h codes 1-4 have no case in the source under any libva
version). -/
def config_attr_case (t : Nat) (value : Nat) : List WOp :=
  if t = VAConfigAttribRTFormat then
    .start_array (some "rt_formats")
      :: (bitmaskNames rt_format_types value).map (fun s => .print_string none s)
      ++ [.end_array]
  else if t = VAConfigAttribRateControl then
    .start_array (some "rate_control_modes")
      :: (bitmaskNames rc_modes value).map (fun s => .print_string none s)
      ++ [.end_array]
  else
    [.start_object (some "unknown"), .print_integer (some "type") (t : Int),
     .print_integer (some "value") (value : Int), .end_object]

/-- The attribute loop of dump_config_attributes (vadumpcaps.c:548-1010):
skip attributes reported VA_ATTRIB_NOT_SUPPORTED, decode the rest; the
RTFormat case stores its value into the rt_formats out-parameter (564).
Returns the writer output and the final out-parameter value. -/
def attr_scan (vals : Nat → Nat) : List Nat → List WOp × Nat
  | [] => ([], 0)
  | t :: rest =>
      let r := attr_scan vals rest
      let v := vals t
      if v = VA_ATTRIB_NOT_SUPPORTED then r
      else (config_attr_case t v ++ r.1,
            if t = VAConfigAttribRTFormat then v else r.2)

/-- dump_config_attributes (vadumpcaps.c:535-1011): one batch query of every
attribute type for the (profile, entry point) pair; on failure CHECK_VAS
reports and returns, leaving the caller's rt_formats at 0. -/
def dump_config_attributes (drv : Driver) (profile entrypoint : Int) :
    List Ev × Nat :=
  let q := drv.getConfigAttributes profile entrypoint
  if q.1 ≠ VA_STATUS_SUCCESS then
    ([.call (.getConfigAttributes profile entrypoint),
      errEv drv "Unable to get config attributes" q.1], 0)
  else
    let s := attr_scan q.2 (List.range VAConfigAttribTypeMax)
    (.call (.getConfigAttributes profile entrypoint) :: s.1.map Ev.op, s.2)

/-- The rt_format name scan of one surface-format object
(vadumpcaps.c:1046-1054): first table entry whose bit intersects the single
class bit, else the explicit name "unknown". -/
def rt_format_name : List (Nat × String) → Nat → String
  | [], _ => "unknown"
  | e :: rest, rt => if rt &&& e.1 ≠ 0 then e.2 else rt_format_name rest rt

/-- Memory-type bits (vadumpcaps.c:1082-1091), in emission order. -/
def memory_type_bits : List (Nat × String) :=
  [(0x1, "VA"), (0x2, "V4L2"), (0x4, "USER_PTR"),
   (0x10000000, "KERNEL_DRM"), (0x20000000, "DRM_PRIME"),
   (0x40000000, "DRM_PRIME_2")]

/-- Usage-hint bits (vadumpcaps.c:1100-1106), in emission order. -/
def usage_hint_bits : List (Nat × String) :=
  [(0x1, "DECODER"), (0x2, "ENCODER"), (0x4, "VPP_READ"),
   (0x8, "VPP_WRITE"), (0x10, "DISPLAY")]

/-- One arm of the surface-attribute switch (vadumpcaps.c:1064-1130).  A
PixelFormat entry emits nothing here (collected into the pixel_formats array
afterwards); ExternalBufferDescriptor is ignored; unrecognized types fall to
an "unknown" object. -/
def surface_attr_case (a : SurfaceAttr) : List WOp :=
  if a.type = VASurfaceAttribPixelFormat then []
  else if a.type = VASurfaceAttribMinWidth then
    [.print_integer (some "min_width") a.value]
  else if a.type = VASurfaceAttribMaxWidth then
    [.print_integer (some "max_width") a.value]
  else if a.type = VASurfaceAttribMinHeight then
    [.print_integer (some "min_height") a.value]
  else if a.type = VASurfaceAttribMaxHeight then
    [.print_integer (some "max_height") a.value]
  else if a.type = VASurfaceAttribMemoryType then
    .start_array (some "memory_types")
      :: (bitmaskNames memory_type_bits a.value.toNat).map
           (fun s => .print_string none s)
      ++ [.end_array]
  else if a.type = VASurfaceAttribExternalBufferDescriptor then []
  else if a.type = VASurfaceAttribUsageHint then
    .start_array (some "usage_hints")
      :: (bitmaskNames usage_hint_bits a.value.toNat).map
           (fun s => .print_string none s)
      ++ [.end_array]
  else if a.type = VASurfaceAttribDRMFormatModifiers then
    .start_array (some "drm_format_modifiers")
      :: a.modifiers.map (fun m => .print_integer none m)
      ++ [.end_array]
  else
    [.start_object (some "unknown"), .print_integer (some "type") (a.type : Int),
     .print_integer (some "value") a.value, .end_object]

/-- The surface-format object for one pixel-format-class bit
(vadumpcaps.c:1044-1148). -/
def surface_format_object (attrs : List SurfaceAttr) (rt : Nat) : List WOp :=
  .start_object none
    :: .print_string (some "rt_format") (rt_format_name rt_format_types rt)
    :: attrs.flatMap surface_attr_case
    ++ (if attrs.any (fun a => a.type == VASurfaceAttribPixelFormat) then
          .start_array (some "pixel_formats")
            :: ((attrs.filter (fun a => a.type == VASurfaceAttribPixelFormat)).map
                 (fun a => .print_string none (fourccStr a.value)))
            ++ [.end_array]
        else [])
    ++ [.end_object]

/-- One iteration of the per-bit loop of dump_surface_attributes
(vadumpcaps.c:1018-1151) for a set bit: create an ephemeral config for the
single pixel-format class, query the surface attributes twice (count, then
fill), emit the object.  Returns the events and whether the loop continues:
a CHECK_VAS failure returns from the whole function.  The source contains no
vaDestroyConfig call on any path of this function. -/
def surf_one (drv : Driver) (profile entrypoint : Int) (rt : Nat) :
    List Ev × Bool :=
  let vas := drv.createConfig profile entrypoint rt
  if vas ≠ VA_STATUS_SUCCESS then
    ([.call (.createConfig profile entrypoint rt),
      errEv drv "Unable to create config to test surface attributes" vas],
     false)
  else
    let vas1 := drv.querySurfaceAttributesCount rt
    if vas1 ≠ VA_STATUS_SUCCESS then
      ([.call (.createConfig profile entrypoint rt),
        .call (.querySurfaceAttributesCount rt),
        errEv drv "Unable to query surface attributes" vas1], false)
    else
      let q := drv.querySurfaceAttributesList rt
      if q.1 ≠ VA_STATUS_SUCCESS then
        ([.call (.createConfig profile entrypoint rt),
          .call (.querySurfaceAttributesCount rt),
          .call (.querySurfaceAttributesList rt),
          errEv drv "Unable to query surface attributes" q.1], false)
      else
        (.call (.createConfig profile entrypoint rt)
          :: .call (.querySurfaceAttributesCount rt)
          :: .call (.querySurfaceAttributesList rt)
          :: (surface_format_object q.2 rt).map Ev.op, true)

/-- The bit loop of dump_surface_attributes (vadumpcaps.c:1017-1152):
rt_format iterates over the single-bit masks low to high; clear bits are
skipped, and an early CHECK_VAS return abandons the remaining bits. -/
def surf_bits (drv : Driver) (profile entrypoint : Int) (rt_formats : Nat) :
    List Nat → List Ev
  | [] => []
  | b :: rest =>
      if rt_formats &&& (2 ^ b) = 0 then
        surf_bits drv profile entrypoint rt_formats rest
      else
        let r := surf_one drv profile entrypoint (2 ^ b)
        if r.2 then r.1 ++ surf_bits drv profile entrypoint rt_formats rest
        else r.1

/-- dump_surface_attributes (vadumpcaps.c:1013-1152): the 32 single-bit
masks of the unsigned rt_format word. -/
def dump_surface_attributes (drv : Driver) (profile entrypoint : Int)
    (rt_formats : Nat) : List Ev :=
  surf_bits drv profile entrypoint rt_formats (List.range 32)

/-- One deinterlacing-caps element (vadumpcaps.c:1195-1208): numeric type,
table name if found, no marker otherwise. -/
def deint_cap_entry (t : Int) : List WOp :=
  [.start_object none, .print_integer (some "type") t]
  ++ (match lookupName deinterlacer_types t with
      | some nm => [WOp.print_string (some "name") nm]
      | none => [])
  ++ [.end_object]

/-- One colour-balance-style caps element with a value range
(vadumpcaps.c:1226-1244, 1264-1282). -/
def range_cap_entry (tbl : List (Int × String)) (c : Int × FRange) :
    List WOp :=
  [.start_object none, .print_integer (some "type") c.1]
  ++ (match lookupName tbl c.1 with
      | some nm => [WOp.print_string (some "name") nm]
      | none => [])
  ++ [.print_double (some "min_value") c.2.min_value,
      .print_double (some "max_value") c.2.max_value,
      .print_double (some "default_value") c.2.default_value,
      .print_double (some "step") c.2.step,
      .end_object]

/-- One HDR-caps element (vadumpcaps.c:1310-1330). -/
def hdr_cap_entry (c : Int × Nat) : List WOp :=
  [.start_object none, .print_integer (some "type") c.1]
  ++ (match lookupName hdr_metadata_types c.1 with
      | some nm => [WOp.print_string (some "name") nm]
      | none => [])
  ++ (.start_array (some "tone_mapping")
       :: (bitmaskNames tone_mapping_types c.2).map
            (fun s => WOp.print_string none s)
       ++ [.end_array])
  ++ [.end_object]

/-- One 3D-LUT caps element (vadumpcaps.c:1351-1365); the source prints the
fields directly inside the types array, without a per-entry object. -/
def lut_cap_entry (c : LutCap) : List WOp :=
  [.print_integer (some "lut_size") c.lut_size,
   .start_array (some "lut_stride")]
  ++ c.lut_stride.map (fun m => WOp.print_integer none m)
  ++ [.end_array,
      .print_integer (some "bit_depth") c.bit_depth,
      .print_integer (some "num_channel") c.num_channel,
      .start_array (some "channel_mapping")]
  ++ (bitmaskNames tdlut_channel_types c.channel_mapping).map
       (fun s => WOp.print_string none s)
  ++ [.end_array]

/-- dump_filter_caps (vadumpcaps.c:1175-1389): the per-filter capability
switch.  HVSNoiseReduction has no caps and no query (1289-1293); the default
arm queries one generic cap and prints its range when the returned count is
positive. -/
def dump_filter_caps (drv : Driver) (filter : Int) : List Ev :=
  if filter = VAProcFilterDeinterlacing then
    let q := drv.queryFilterCapsDeinterlacing
    .call (.queryVideoProcFilterCaps filter)
      :: (if q.1 ≠ VA_STATUS_SUCCESS then
            [errEv drv "Failed to query deinterlacing caps" q.1]
          else
            .op (.start_array (some "types"))
              :: (q.2.flatMap deint_cap_entry).map Ev.op
              ++ [.op .end_array])
  else if filter = VAProcFilterColorBalance then
    let q := drv.queryFilterCapsColorBalance
    .call (.queryVideoProcFilterCaps filter)
      :: (if q.1 ≠ VA_STATUS_SUCCESS then
            [errEv drv "Failed to query colour balance caps" q.1]
          else
            .op (.start_array (some "types"))
              :: (q.2.flatMap (range_cap_entry colour_balance_types)).map Ev.op
              ++ [.op .end_array])
  else if filter = VAProcFilterTotalColorCorrection then
    let q := drv.queryFilterCapsTCC
    .call (.queryVideoProcFilterCaps filter)
      :: (if q.1 ≠ VA_STATUS_SUCCESS then
            [errEv drv "Failed to query total colour correction caps" q.1]
          else
            .op (.start_array (some "types"))
              :: (q.2.flatMap
                   (range_cap_entry total_colour_correction_types)).map Ev.op
              ++ [.op .end_array])
  else if filter = VAProcFilterHVSNoiseReduction then []
  else if filter = VAProcFilterHighDynamicRangeToneMapping then
    let q := drv.queryFilterCapsHDR
    .call (.queryVideoProcFilterCaps filter)
      :: (if q.1 ≠ VA_STATUS_SUCCESS then
            [errEv drv "Failed to query HDR tone mapping caps" q.1]
          else
            .op (.start_array (some "types"))
              :: (q.2.flatMap hdr_cap_entry).map Ev.op
              ++ [.op .end_array])
  else if filter = VAProcFilter3DLUT then
    let q := drv.queryFilterCapsLUT
    .call (.queryVideoProcFilterCaps filter)
      :: (if q.1 ≠ VA_STATUS_SUCCESS then
            [errEv drv "Failed to query 3D LUT caps" q.1]
          else
            .op (.start_array (some "types"))
              :: (q.2.flatMap lut_cap_entry).map Ev.op
              ++ [.op .end_array])
  else
    let q := drv.queryFilterCapsDefault filter
    .call (.queryVideoProcFilterCaps filter)
      :: (if q.1 ≠ VA_STATUS_SUCCESS then
            [errEv drv "Failed to query filter caps" q.1]
          else if q.2.1 > 0 then
            [.op (.print_double (some "min_value") q.2.2.min_value),
             .op (.print_double (some "max_value") q.2.2.max_value),
             .op (.print_double (some "default_value") q.2.2.default_value),
             .op (.print_double (some "step") q.2.2.step)]
          else [])

/-- dump_pipeline_caps (vadumpcaps.c:1391-1482): one pipeline-caps query for
the given number of filter parameter buffers, then the pipeline object. -/
def dump_pipeline_caps (drv : Driver) (nb : Nat) : List Ev :=
  let q := drv.queryVideoProcPipelineCaps nb
  .call (.queryVideoProcPipelineCaps nb)
    :: (if q.1 ≠ VA_STATUS_SUCCESS then
          [errEv drv "Failed to query pipeline caps" q.1]
        else
          [Ev.op (.start_object (some "pipeline")),
           Ev.op (.start_array (some "pipeline_flags"))]
          ++ (bitmaskNames proc_pipeline_flags q.2.pipeline_flags).map
               (fun s => Ev.op (.print_string none s))
          ++ [Ev.op .end_array, Ev.op (.start_array (some "filter_flags"))]
          ++ (bitmaskNames proc_filter_flags q.2.filter_flags).map
               (fun s => Ev.op (.print_string none s))
          ++ [Ev.op .end_array,
              Ev.op (.print_integer (some "num_forward_references")
                q.2.num_forward_references),
              Ev.op (.print_integer (some "num_backward_references")
                q.2.num_backward_references),
              Ev.op (.start_array (some "input_colour_standards"))]
          ++ dump_colour_standards q.2.input_color_standards
          ++ [Ev.op .end_array,
              Ev.op (.start_array (some "output_colour_standards"))]
          ++ dump_colour_standards q.2.output_color_standards
          ++ [Ev.op .end_array, Ev.op (.start_array (some "rotation_flags"))]
          ++ (bitmaskShiftNames rotation_types q.2.rotation_flags).map
               (fun s => Ev.op (.print_string none s))
          ++ [Ev.op .end_array, Ev.op (.start_array (some "blend_flags"))]
          ++ (bitmaskShiftNames blend_types q.2.blend_flags).map
               (fun s => Ev.op (.print_string none s))
          ++ [Ev.op .end_array, Ev.op (.start_array (some "mirror_flags"))]
          ++ (bitmaskShiftNames mirror_types q.2.mirror_flags).map
               (fun s => Ev.op (.print_string none s))
          ++ [Ev.op .end_array,
              Ev.op (.print_integer (some "num_additional_outputs")
                q.2.num_additional_outputs),
              Ev.op (.start_array (some "input_pixel_formats"))]
          ++ q.2.input_pixel_formats.map
               (fun f => Ev.op (.print_string none (fourccStr f)))
          ++ [Ev.op .end_array,
              Ev.op (.start_array (some "output_pixel_formats"))]
          ++ q.2.output_pixel_formats.map
               (fun f => Ev.op (.print_string none (fourccStr f)))
          ++ [Ev.op .end_array,
              Ev.op (.print_integer (some "max_input_width") q.2.max_input_width),
              Ev.op (.print_integer (some "max_input_height") q.2.max_input_height),
              Ev.op (.print_integer (some "min_input_width") q.2.min_input_width),
              Ev.op (.print_integer (some "min_input_height") q.2.min_input_height),
              Ev.op (.print_integer (some "max_output_width") q.2.max_output_width),
              Ev.op (.print_integer (some "max_output_height") q.2.max_output_height),
              Ev.op (.print_integer (some "min_output_width") q.2.min_output_width),
              Ev.op (.print_integer (some "min_output_height") q.2.min_output_height),
              Ev.op .end_object])

/-- The common shape of the parameter-buffer probe branches
(vadumpcaps.c:1494-1690): a capability query whose failure is an early
return, then, when the branch condition holds, a buffer creation whose
failure is an early return.  Returns (events, buffer created, early
return). -/
def probe_query_then_buffer (drv : Driver) (filter : Int) (qstat : Int)
    (qdesc : String) (cond : Bool) (bdesc : String) : List Ev × Bool × Bool :=
  if qstat ≠ VA_STATUS_SUCCESS then
    ([.call (.queryVideoProcFilterCaps filter), errEv drv qdesc qstat],
     false, true)
  else if cond then
    let vas := drv.createBuffer filter
    if vas ≠ VA_STATUS_SUCCESS then
      ([.call (.queryVideoProcFilterCaps filter),
        .call (.createBuffer filter), errEv drv bdesc vas], false, true)
    else
      ([.call (.queryVideoProcFilterCaps filter),
        .call (.createBuffer filter)], true, false)
  else ([.call (.queryVideoProcFilterCaps filter)], false, false)

/-- The parameter-buffer synthesis switch of dump_filter_pipelines
(vadumpcaps.c:1487-1690): per filter, query its caps and package the
filter's default parameter values into a throwaway buffer.  Deinterlacing
picks the highest reported algorithm and builds a buffer only when it is
not None (1506-1523); ColorBalance, TotalColorCorrection and 3DLUT build a
buffer when at least one capability entry is reported; HVSNoiseReduction
has no caps query and always builds a buffer (1585-1597); HDR requires the
first entry to be HDR10 metadata (1611-1634); the default arm builds a
buffer when the returned count is positive (1668-1689).  None does
nothing. -/
def filter_param_probe (drv : Driver) (filter : Int) :
    List Ev × Bool × Bool :=
  if filter = VAProcFilterNone then ([], false, false)
  else if filter = VAProcFilterDeinterlacing then
    probe_query_then_buffer drv filter (drv.queryFilterCapsDeinterlacing).1
      "Failed to query deinterlacing caps"
      (decide ((drv.queryFilterCapsDeinterlacing).2.foldl
          (fun acc t => if acc < t then t else acc) VAProcDeinterlacingNone
        ≠ VAProcDeinterlacingNone))
      "Failed to create deinterlacing parameter buffer"
  else if filter = VAProcFilterColorBalance then
    probe_query_then_buffer drv filter (drv.queryFilterCapsColorBalance).1
      "Failed to query colour balance caps"
      (decide ((drv.queryFilterCapsColorBalance).2.length > 0))
      "Failed to create colour balance parameter buffer"
  else if filter = VAProcFilterTotalColorCorrection then
    probe_query_then_buffer drv filter (drv.queryFilterCapsTCC).1
      "Failed to query total colour correction caps"
      (decide ((drv.queryFilterCapsTCC).2.length > 0))
      "Failed to create colour correction parameter buffer"
  else if filter = VAProcFilterHVSNoiseReduction then
    let vas := drv.createBuffer filter
    if vas ≠ VA_STATUS_SUCCESS then
      ([.call (.createBuffer filter),
        errEv drv "Failed to create HVS NR parameter buffer" vas],
       false, true)
    else ([.call (.createBuffer filter)], true, false)
  else if filter = VAProcFilterHighDynamicRangeToneMapping then
    probe_query_then_buffer drv filter (drv.queryFilterCapsHDR).1
      "Failed to query HDR tone mapping caps"
      ((drv.queryFilterCapsHDR).2.length > 0 &&
        ((drv.queryFilterCapsHDR).2.headD (0, 0)).1
          == VAProcHighDynamicRangeMetadataHDR10)
      "Failed to create HDR tone mapping parameter buffer"
  else if filter = VAProcFilter3DLUT then
    probe_query_then_buffer drv filter (drv.queryFilterCapsLUT).1
      "Failed to query 3D LUT caps"
      (decide ((drv.queryFilterCapsLUT).2.length > 0))
      "Failed to create 3D LUT parameter buffer"
  else
    probe_query_then_buffer drv filter (drv.queryFilterCapsDefault filter).1
      "Failed to query filter caps"
      (decide ((drv.queryFilterCapsDefault filter).2.1 > 0))
      "Failed to create filter parameter buffer"

/-- dump_filter_pipelines (vadumpcaps.c:1484-1702).  After the probe: an
early CHECK_VAS return stops; with no parameter buffer the pipeline query
runs with no filter parameters for the None filter only, and is skipped
entirely for any other filter (the "Broken filter caps" comment, 1695-1697);
with a buffer the pipeline query runs with that one buffer, which is then
destroyed. -/
def dump_filter_pipelines (drv : Driver) (filter : Int) : List Ev :=
  let p := filter_param_probe drv filter
  if p.2.2 then p.1
  else if p.2.1 then
    p.1 ++ dump_pipeline_caps drv 1 ++ [.call .destroyBuffer]
  else if filter = VAProcFilterNone then p.1 ++ dump_pipeline_caps drv 0
  else p.1

/-- One filter object of the dump_filters loop (vadumpcaps.c:1745-1757):
numeric filter code, table name if found (no marker otherwise), then the
mask-gated caps and pipeline sections. -/
def filter_entry (drv : Driver) (mask : Nat) (filter : Int) : List Ev :=
  [.op (.start_object none), .op (.print_integer (some "filter") filter)]
  ++ (match lookupName filters filter with
      | some nm => [Ev.op (.print_string (some "name") nm)]
      | none => [])
  ++ (if DUMP mask DUMP_FILTER_CAPS && filter != VAProcFilterNone then
        dump_filter_caps drv filter
      else [])
  ++ (if DUMP mask DUMP_PIPELINE_CAPS then dump_filter_pipelines drv filter
      else [])
  ++ [.op .end_object]

/-- dump_filters (vadumpcaps.c:1704-1764): one ephemeral config built from
the whole aggregate rt_format mask, one processing context, one filter
enumeration; the filter list is traversed from i = -1, prepending the
implicit None filter.  The config and context are destroyed only on the
full-success path; each CHECK_VAS return leaks whatever was created. -/
def dump_filters (drv : Driver) (mask : Nat) (rt_format : Nat) : List Ev :=
  let vas := drv.createConfig VAProfileNone VAEntrypointVideoProc rt_format
  .call (.createConfig VAProfileNone VAEntrypointVideoProc rt_format)
    :: (if vas ≠ VA_STATUS_SUCCESS then
          [errEv drv "Unable to create config to test filters" vas]
        else
          let vasC := drv.createContext
          .call .createContext
            :: (if vasC ≠ VA_STATUS_SUCCESS then
                  [errEv drv "Unable to create context to test filters" vasC]
                else
                  let q := drv.queryVideoProcFilters
                  .call .queryVideoProcFilters
                    :: (if q.1 ≠ VA_STATUS_SUCCESS then
                          [errEv drv "Failed to query filters" q.1]
                        else
                          .op (.start_array (some "filters"))
                            :: ((VAProcFilterNone :: q.2).flatMap
                                 (filter_entry drv mask))
                            ++ [.op .end_array, .call .destroyContext,
                                .call .destroyConfig])))

/-- Name and description prints of one entry-point object
(vadumpcaps.c:1786-1789): emitted only when the code is in the table. -/
def entrypoint_name_ops (e : Int) : List WOp :=
  match lookupNameDesc entrypoints e with
  | some nd => [.print_string (some "name") nd.1,
                .print_string (some "description") nd.2]
  | none => []

/-- One entry-point object of the dump_entrypoints loop
(vadumpcaps.c:1777-1812): rt_formats starts at 0 and is written only by the
attribute pass; the surface-format pass runs only when its flag is set and
rt_formats is nonzero; the filter pass runs for the VideoProc entry point
whenever its flag is set, with whatever rt_formats holds. -/
def entrypoint_entry (drv : Driver) (mask : Nat) (profile e : Int) :
    List Ev :=
  let a := if DUMP mask DUMP_ATTRIBUTES
           then dump_config_attributes drv profile e
           else ([], 0)
  [.op (.start_object none), .op (.print_integer (some "entrypoint") e)]
  ++ (entrypoint_name_ops e).map Ev.op
  ++ (if DUMP mask DUMP_ATTRIBUTES then
        .op (.start_object (some "attributes")) :: a.1 ++ [.op .end_object]
      else [])
  ++ (if DUMP mask DUMP_SURFACE_FORMATS && a.2 != 0 then
        .op (.start_array (some "surface_formats"))
          :: dump_surface_attributes drv profile e a.2
          ++ [.op .end_array]
      else [])
  ++ (if DUMP mask DUMP_FILTERS && e == VAEntrypointVideoProc then
        dump_filters drv mask a.2
      else [])
  ++ [.op .end_object]

/-- dump_entrypoints (vadumpcaps.c:1766-1815). -/
def dump_entrypoints (drv : Driver) (mask : Nat) (profile : Int) : List Ev :=
  let q := drv.queryConfigEntrypoints profile
  .call .maxNumEntrypoints
    :: .call (.queryConfigEntrypoints profile)
    :: (if q.1 ≠ VA_STATUS_SUCCESS then
          [errEv drv "Unable to query entrypoints" q.1]
        else q.2.flatMap (entrypoint_entry drv mask profile))

/-- Name and description prints of one profile object
(vadumpcaps.c:1836-1839). -/
def profile_name_ops (p : Int) : List WOp :=
  match lookupNameDesc profiles p with
  | some nd => [.print_string (some "name") nd.1,
                .print_string (some "description") nd.2]
  | none => []

/-- One profile object of the dump_profiles loop (vadumpcaps.c:1827-1848):
the entrypoints array delimiters are emitted here, around the call into
dump_entrypoints. -/
def profile_entry (drv : Driver) (mask : Nat) (p : Int) : List Ev :=
  [.op (.start_object none), .op (.print_integer (some "profile") p)]
  ++ (profile_name_ops p).map Ev.op
  ++ (if DUMP mask DUMP_ENTRYPOINTS then
        .op (.start_array (some "entrypoints"))
          :: dump_entrypoints drv mask p
          ++ [.op .end_array]
      else [])
  ++ [.op .end_object]

/-- dump_profiles (vadumpcaps.c:1817-1851). -/
def dump_profiles (drv : Driver) (mask : Nat) : List Ev :=
  let q := drv.queryConfigProfiles
  .call .maxNumProfiles
    :: .call .queryConfigProfiles
    :: (if q.1 ≠ VA_STATUS_SUCCESS then
          [errEv drv "Unable to query profiles" q.1]
        else q.2.flatMap (profile_entry drv mask))

/-- The shared field prints of one image or subpicture format object
(vadumpcaps.c:1863-1881, 1901-1919). -/
def image_format_fields (f : ImageFormat) : List WOp :=
  [.print_string (some "pixel_format") (fourccStr f.fourcc),
   .print_string (some "byte_order")
     (if f.byte_order = VA_LSB_FIRST then "LE"
      else if f.byte_order = VA_MSB_FIRST then "BE" else "unknown"),
   .print_integer (some "bits_per_pixel") f.bits_per_pixel]
  ++ (if f.depth != 0 then
        [.print_integer (some "depth") f.depth,
         .print_integer (some "red_mask") f.red_mask,
         .print_integer (some "green_mask") f.green_mask,
         .print_integer (some "blue_mask") f.blue_mask,
         .print_integer (some "alpha_mask") f.alpha_mask]
      else [])

/-- One image-format object (vadumpcaps.c:1862-1884). -/
def image_format_entry (f : ImageFormat) : List WOp :=
  .start_object none :: image_format_fields f ++ [.end_object]

/-- dump_image_formats (vadumpcaps.c:1853-1887). -/
def dump_image_formats (drv : Driver) : List Ev :=
  let q := drv.queryImageFormats
  .call .maxNumImageFormats
    :: .call .queryImageFormats
    :: (if q.1 ≠ VA_STATUS_SUCCESS then
          [errEv drv "Unable to query image formats" q.1]
        else (q.2.flatMap image_format_entry).map Ev.op)

/-- One subpicture-format object (vadumpcaps.c:1900-1932): the image-format
fields plus a flags bitmask array. -/
def subpicture_format_entry (ff : ImageFormat × Nat) : List WOp :=
  .start_object none :: image_format_fields ff.1
  ++ (.start_array (some "flags")
       :: (bitmaskNames subpicture_flags ff.2).map
            (fun s => WOp.print_string none s)
       ++ [.end_array])
  ++ [.end_object]

/-- dump_subpicture_formats (vadumpcaps.c:1889-1937). -/
def dump_subpicture_formats (drv : Driver) : List Ev :=
  let q := drv.querySubpictureFormats
  .call .maxNumSubpictureFormats
    :: .call .querySubpictureFormats
    :: (if q.1 ≠ VA_STATUS_SUCCESS then
          [errEv drv "Unable to query subpicture formats" q.1]
        else (q.2.flatMap subpicture_format_entry).map Ev.op)

/-- Build-time libva version constants baked into the binary
(VA_MAJOR/MINOR/MICRO_VERSION); the values are immaterial to the claims. -/
def VA_MAJOR_VERSION : Int := 1

def VA_MINOR_VERSION : Int := 13

def VA_MICRO_VERSION : Int := 0

/-- The document-producing tail of main (vadumpcaps.c:2011-2079): an empty
selection mask is normalized to all sections; the header (versions and
vendor string) is emitted unconditionally; the three top-level sections are
mask-gated. -/
def va_dump (mask0 : Nat) (drv : Driver) : List Ev :=
  let mask := normalizeMask mask0
  [.op (.start_object none),
   .op (.start_object (some "build_version")),
   .op (.print_integer (some "major") VA_MAJOR_VERSION),
   .op (.print_integer (some "minor") VA_MINOR_VERSION),
   .op (.print_integer (some "micro") VA_MICRO_VERSION),
   .op .end_object,
   .op (.start_object (some "driver_version")),
   .op (.print_integer (some "major") drv.versionMajor),
   .op (.print_integer (some "minor") drv.versionMinor),
   .op .end_object,
   .call .queryVendorString,
   (match drv.vendorString with
    | some s => Ev.op (.print_string (some "driver_vendor") s)
    | none => Ev.op (.print_string (some "driver_vendor") "unknown"))]
  ++ (if DUMP mask DUMP_PROFILES then
        .op (.start_array (some "profiles"))
          :: dump_profiles drv mask ++ [.op .end_array]
      else [])
  ++ (if DUMP mask DUMP_IMAGE_FORMATS then
        .op (.start_array (some "image_formats"))
          :: dump_image_formats drv ++ [.op .end_array]
      else [])
  ++ (if DUMP mask DUMP_SUBPICTURE_FORMATS then
        .op (.start_array (some "subpicture_formats"))
          :: dump_subpicture_formats drv ++ [.op .end_array]
      else [])
  ++ [.op .end_object]

/-- The driver-call projection of an event list. -/
def callsOf (evs : List Ev) : List VACall :=
  evs.filterMap (fun e => match e with | .call c => some c | _ => none)

/-- Count events satisfying a predicate. -/
def countEv (evs : List Ev) (p : Ev → Bool) : Nat := (evs.filter p).length

/-- Count driver calls satisfying a predicate. -/
def countCalls (evs : List Ev) (p : VACall → Bool) : Nat :=
  ((callsOf evs).filter p).length

def isCreateConfigC : VACall → Bool
  | .createConfig _ _ _ => true
  | _ => false

def isDestroyConfigC : VACall → Bool
  | .destroyConfig => true
  | _ => false

def isCreateContextC : VACall → Bool
  | .createContext => true
  | _ => false

def isDestroyContextC : VACall → Bool
  | .destroyContext => true
  | _ => false

def isPipelineQueryC : VACall → Bool
  | .queryVideoProcPipelineCaps _ => true
  | _ => false

def isQueryVPFiltersC : VACall → Bool
  | .queryVideoProcFilters => true
  | _ => false

def isSurfaceQueryC : VACall → Bool
  | .querySurfaceAttributesCount _ => true
  | .querySurfaceAttributesList _ => true
  | _ => false

/-- Queries belonging to the profile/entry-point/attribute/surface/filter
traversal: the ones claim C5 requires to be absent when only image formats
are selected. -/
def isTraversalQuery : VACall → Bool
  | .maxNumProfiles => true
  | .queryConfigProfiles => true
  | .maxNumEntrypoints => true
  | .queryConfigEntrypoints _ => true
  | .getConfigAttributes _ _ => true
  | .createConfig _ _ _ => true
  | .destroyConfig => true
  | .querySurfaceAttributesCount _ => true
  | .querySurfaceAttributesList _ => true
  | .createContext => true
  | .destroyContext => true
  | .queryVideoProcFilters => true
  | .queryVideoProcFilterCaps _ => true
  | .createBuffer _ => true
  | .destroyBuffer => true
  | .queryVideoProcPipelineCaps _ => true
  | _ => false

/-- An output event carrying the given tag. -/
def isOpTagged (t : String) : Ev → Bool
  | .op w => tagOf w == some t
  | _ => false

/-! Counting lemmas over event lists. -/

theorem countEv_append (a b : List Ev) (p : Ev → Bool) :
    countEv (a ++ b) p = countEv a p + countEv b p := by
  simp [countEv, List.filter_append]

theorem countEv_cons (e : Ev) (l : List Ev) (p : Ev → Bool) :
    countEv (e :: l) p = (if p e then 1 else 0) + countEv l p := by
  unfold countEv
  rw [List.filter_cons]
  split <;> simp <;> omega

theorem countEv_flatMap_zero {α : Type} (l : List α) (g : α → List Ev)
    (p : Ev → Bool) (h : ∀ x, countEv (g x) p = 0) :
    countEv (l.flatMap g) p = 0 := by
  induction l with
  | nil => rfl
  | cons x rest ih => rw [List.flatMap_cons, countEv_append, h, ih]

theorem callsOf_append (a b : List Ev) :
    callsOf (a ++ b) = callsOf a ++ callsOf b := by
  simp [callsOf, List.filterMap_append]

theorem callsOf_map_op (ws : List WOp) : callsOf (ws.map Ev.op) = [] := by
  induction ws with
  | nil => rfl
  | cons w rest ih => simpa [callsOf, List.filterMap_cons] using ih

theorem countCalls_append (a b : List Ev) (p : VACall → Bool) :
    countCalls (a ++ b) p = countCalls a p + countCalls b p := by
  simp [countCalls, callsOf_append, List.filter_append]

theorem countCalls_map_op (ws : List WOp) (p : VACall → Bool) :
    countCalls (ws.map Ev.op) p = 0 := by
  simp [countCalls, callsOf_map_op]

theorem countCalls_cons_op (w : WOp) (l : List Ev) (p : VACall → Bool) :
    countCalls (.op w :: l) p = countCalls l p := rfl

theorem countCalls_cons_err (d : String) (s : Int) (ss : String)
    (l : List Ev) (p : VACall → Bool) :
    countCalls (.err d s ss :: l) p = countCalls l p := rfl

theorem countCalls_cons_call (c : VACall) (l : List Ev) (p : VACall → Bool) :
    countCalls (.call c :: l) p = (if p c then 1 else 0) + countCalls l p := by
  unfold countCalls callsOf
  rw [List.filterMap_cons]
  simp only []
  rw [List.filter_cons]
  split <;> simp <;> omega

theorem countCalls_flatMap_zero {α : Type} (l : List α) (g : α → List Ev)
    (p : VACall → Bool) (h : ∀ x, countCalls (g x) p = 0) :
    countCalls (l.flatMap g) p = 0 := by
  induction l with
  | nil => rfl
  | cons x rest ih => rw [List.flatMap_cons, countCalls_append, h, ih]

/-! Concrete drivers used in claim witnesses and counterexamples. -/

/-- An all-success driver whose surface-attribute query returns one
min-width attribute, so one pixel-format-class bit is processed to
completion. -/
def drvSurf : Driver :=
  { querySurfaceAttributesList := fun _ => (0, [{ type := 2, value := 16 }]) }

/-- A driver whose context creation fails with status 2. -/
def drvCtxFail : Driver := { createContext := 2 }

/-- A driver reporting one supported profile (H264Main) whose entry-point
enumeration fails with status 2. -/
def drvEpFail : Driver :=
  { queryConfigProfiles := (0, [6]),
    queryConfigEntrypoints := fun _ => (2, []) }

/-- The fully defaulted all-success driver: every query succeeds and every
list is empty. -/
def drvOk : Driver := {}

/-- Claim C1 (code_bug evidence): the ephemeral configurations are not
released.  dump_surface_attributes processes the single set bit to
completion (both surface-attribute queries run) yet issues no
vaDestroyConfig at all; and dump_filters, when context creation fails after
its config was created, returns without destroying the config. -/
theorem ephemeral_config_never_destroyed :
    countCalls (dump_surface_attributes drvSurf 6 1 1) isCreateConfigC = 1 ∧
    countCalls (dump_surface_attributes drvSurf 6 1 1) isSurfaceQueryC = 2 ∧
    countCalls (dump_surface_attributes drvSurf 6 1 1) isDestroyConfigC = 0 ∧
    countCalls (dump_filters drvCtxFail 0 1) isCreateConfigC = 1 ∧
    countCalls (dump_filters drvCtxFail 0 1) isDestroyConfigC = 0 ∧
    countCalls (dump_filters drvCtxFail 0 1) isDestroyContextC = 0 := by
  decide

/-- Claim C2 counterexample: with one supported profile whose entry-point
enumeration fails, the profile's object still contains the `entrypoints`
key, emitted by dump_profiles before the failing call, holding an empty
array. -/
theorem entrypoints_key_present_on_failure :
    Ev.op (.start_array (some "entrypoints")) ∈ dump_profiles drvEpFail 3 ∧
    dump_profiles drvEpFail 3
      = [.call .maxNumProfiles, .call .queryConfigProfiles,
         .op (.start_object none), .op (.print_integer (some "profile") 6),
         .op (.print_string (some "name") "H264Main"),
         .op (.print_string (some "description")
           "H.264 / MPEG-4 part 10 (AVC) Main Profile"),
         .op (.start_array (some "entrypoints")),
         .call .maxNumEntrypoints, .call (.queryConfigEntrypoints 6),
         .err "Unable to query entrypoints" 2 "status 2",
         .op .end_array, .op .end_object] := by
  decide

/-- Claim C2 (amended): a failing entry-point enumeration is reported to the
diagnostic stream with its operation description, numeric status and status
description, and the enclosing dump_entrypoints returns immediately with
nothing deeper emitted, so the failing profile's object carries an empty
entrypoints array (the key is present with no elements); sibling profiles
before and after are rendered by the same per-profile function and are
unaffected. -/
theorem entrypoint_failure_branch_local (drv : Driver) (mask : Nat)
    (P : Int) (l1 l2 : List Int)
    (hm : DUMP mask DUMP_ENTRYPOINTS = true)
    (hfail : (drv.queryConfigEntrypoints P).1 ≠ VA_STATUS_SUCCESS)
    (hprof : drv.queryConfigProfiles = (VA_STATUS_SUCCESS, l1 ++ P :: l2)) :
    profile_entry drv mask P
      = [.op (.start_object none), .op (.print_integer (some "profile") P)]
        ++ (profile_name_ops P).map Ev.op
        ++ [.op (.start_array (some "entrypoints")),
            .call .maxNumEntrypoints,
            .call (.queryConfigEntrypoints P),
            .err "Unable to query entrypoints"
              (drv.queryConfigEntrypoints P).1
              (drv.errorStr (drv.queryConfigEntrypoints P).1),
            .op .end_array, .op .end_object] ∧
    dump_profiles drv mask
      = .call .maxNumProfiles :: .call .queryConfigProfiles
          :: (l1.flatMap (profile_entry drv mask)
              ++ profile_entry drv mask P
              ++ l2.flatMap (profile_entry drv mask)) := by
  constructor
  · unfold profile_entry dump_entrypoints
    rw [hm]
    simp [hfail, errEv]
  · unfold dump_profiles
    rw [hprof]
    simp [List.flatMap_append]

theorem entrypoint_failure_branch_local_witness :
    DUMP 3 DUMP_ENTRYPOINTS = true ∧
    (drvEpFail.queryConfigEntrypoints 6).1 ≠ VA_STATUS_SUCCESS ∧
    drvEpFail.queryConfigProfiles = (VA_STATUS_SUCCESS, [] ++ 6 :: []) ∧
    dump_profiles drvEpFail 3
      = .call .maxNumProfiles :: .call .queryConfigProfiles
          :: (([] : List Int).flatMap (profile_entry drvEpFail 3)
              ++ profile_entry drvEpFail 3 6
              ++ ([] : List Int).flatMap (profile_entry drvEpFail 3)) :=
  ⟨by decide, by decide, by decide,
    (entrypoint_failure_branch_local drvEpFail 3 6 [] [] (by decide)
      (by decide) (by decide)).2⟩

/-- Claim C3 counterexample: for a default-case filter (Sharpening) whose
capability query succeeds with zero capability entries, the pipeline query
is not issued at all -- there is no fallback query with no filter
parameters. -/
theorem zero_caps_pipeline_query_skipped :
    (drvOk.queryFilterCapsDefault VAProcFilterSharpening).2.1 = 0 ∧
    countCalls (dump_filter_pipelines drvOk VAProcFilterSharpening)
      isPipelineQueryC = 0 ∧
    Ev.call (.queryVideoProcPipelineCaps 0)
      ∉ dump_filter_pipelines drvOk VAProcFilterSharpening := by
  decide

/-- Filters handled by the default arm of the dump_filter_pipelines switch
(vadumpcaps.c:1668-1690). -/
def defaultCaseFilter (f : Int) : Bool :=
  f != VAProcFilterNone && f != VAProcFilterDeinterlacing &&
  f != VAProcFilterColorBalance && f != VAProcFilterTotalColorCorrection &&
  f != VAProcFilterHVSNoiseReduction &&
  f != VAProcFilterHighDynamicRangeToneMapping && f != VAProcFilter3DLUT

/-- Claim C3 (amended): only the None filter leads to a pipeline query with
no filter parameters; for a default-case filter whose capability query
succeeds with zero entries, no parameter buffer exists and the pipeline
query is skipped entirely (the "Broken filter caps" branch), the probe's
events being just the capability query call. -/
theorem pipeline_fallback_for_none_only (drv : Driver) (f : Int)
    (hdef : defaultCaseFilter f = true)
    (hstat : (drv.queryFilterCapsDefault f).1 = VA_STATUS_SUCCESS)
    (hzero : (drv.queryFilterCapsDefault f).2.1 = 0) :
    dump_filter_pipelines drv f = [.call (.queryVideoProcFilterCaps f)] ∧
    Ev.call (.queryVideoProcPipelineCaps 0)
      ∈ dump_filter_pipelines drv VAProcFilterNone := by
  have h := hdef
  simp only [defaultCaseFilter, Bool.and_eq_true, bne_iff_ne, ne_eq] at h
  obtain ⟨⟨⟨⟨⟨⟨h0, h2⟩, h4⟩, h6⟩, h7⟩, h8⟩, h9⟩ := h
  constructor
  · unfold dump_filter_pipelines filter_param_probe probe_query_then_buffer
    simp [h0, h2, h4, h6, h7, h8, h9, hstat, hzero]
  · unfold dump_filter_pipelines filter_param_probe
    simp [VAProcFilterNone, dump_pipeline_caps]

theorem pipeline_fallback_for_none_only_witness :
    defaultCaseFilter VAProcFilterSharpening = true ∧
    (drvOk.queryFilterCapsDefault VAProcFilterSharpening).1
      = VA_STATUS_SUCCESS ∧
    (drvOk.queryFilterCapsDefault VAProcFilterSharpening).2.1 = 0 ∧
    dump_filter_pipelines drvOk VAProcFilterSharpening
      = [.call (.queryVideoProcFilterCaps VAProcFilterSharpening)] :=
  ⟨by decide, by decide, by decide,
    (pipeline_fallback_for_none_only drvOk VAProcFilterSharpening
      (by decide) (by decide) (by decide)).1⟩

/-- An event carrying an explicit "unknown" marker: an "unknown"-tagged
object or an "unknown" string value. -/
def unknownMarker : Ev → Bool
  | .op (.start_object (some t)) => t == "unknown"
  | .op (.print_string _ s) => s == "unknown"
  | _ => false

/-- Claim C4 counterexample: a filter code absent from the filter name table
is rendered as its numeric value only, with the name print skipped and no
"unknown" marker anywhere in the object (vadumpcaps.c:1740-1749). -/
theorem unknown_filter_code_no_marker :
    lookupName filters 999 = none ∧
    filter_entry drvOk 3 999
      = [.op (.start_object none), .op (.print_integer (some "filter") 999),
         .op .end_object] ∧
    (filter_entry drvOk 3 999).all (fun e => !(unknownMarker e)) = true := by
  decide

/-- Claim C4 (amended): codes absent from their name tables always keep the
numeric value, but the "unknown" marker is uneven: colour standards render
an explicit name "unknown", and an attribute type without a decoder case
renders an explicit "unknown" object carrying its raw type and value (the
type code 4 has no case in the source), while profile, entry-point and
filter codes absent from their tables simply omit the name and description
prints with no marker. -/
theorem unknown_enumerant_rendering :
    (∀ t : Int, lookupName colour_types t = none →
      colour_standard_entry t
        = [.op (.start_object none), .op (.print_integer (some "type") t),
           .op (.print_string (some "name") "unknown"), .op .end_object]) ∧
    (∀ v : Nat, config_attr_case 4 v
        = [.start_object (some "unknown"),
           .print_integer (some "type") (4 : Int),
           .print_integer (some "value") (v : Int), .end_object]) ∧
    (∀ (drv : Driver) (mask : Nat) (f : Int),
      lookupName filters f = none →
      DUMP mask DUMP_FILTER_CAPS = false →
      DUMP mask DUMP_PIPELINE_CAPS = false →
      filter_entry drv mask f
        = [.op (.start_object none),
           .op (.print_integer (some "filter") f), .op .end_object]) ∧
    (∀ p : Int, lookupNameDesc profiles p = none → profile_name_ops p = []) ∧
    (∀ e : Int, lookupNameDesc entrypoints e = none →
      entrypoint_name_ops e = []) := by
  refine ⟨?_, ?_, ?_, ?_, ?_⟩
  · intro t h
    unfold colour_standard_entry
    rw [h]
    rfl
  · intro v
    unfold config_attr_case
    simp [VAConfigAttribRTFormat, VAConfigAttribRateControl]
  · intro drv mask f hf hc hp
    unfold filter_entry
    rw [hf, hc, hp]
    simp
  · intro p h
    unfold profile_name_ops
    rw [h]
  · intro e h
    unfold entrypoint_name_ops
    rw [h]

theorem unknown_enumerant_rendering_witness :
    lookupName colour_types 99 = none ∧
    colour_standard_entry 99
      = [.op (.start_object none), .op (.print_integer (some "type") 99),
         .op (.print_string (some "name") "unknown"), .op .end_object] :=
  ⟨by decide, (unknown_enumerant_rendering).1 99 (by decide)⟩

theorem bitmaskNames_eq_filter (tbl : List (Nat × String)) (v : Nat) :
    bitmaskNames tbl v
      = (tbl.filter (fun e => decide (v &&& e.1 ≠ 0))).map Prod.snd := by
  induction tbl with
  | nil => rfl
  | cons e rest ih =>
      rw [bitmaskNames, List.filter_cons]
      by_cases hb : v &&& e.1 ≠ 0
      · rw [if_pos hb, if_pos (by simpa using hb), List.map_cons, ih]
      · rw [if_neg hb, if_neg (by simpa using hb), ih]

/-- Claim C6: for every bitmask table and value, the decoded array is
exactly the names of the table entries whose bit is set, in table-declared
order (it is the order-preserving filter of the table); bits {A, C} out of
{A, B, C, D} decode to exactly ["A", "C"]; every decoded name comes from a
table entry whose bit is set, so set bits absent from the table are
silently dropped; and the RTFormat attribute case emits precisely this
decoding. -/
theorem bitmask_decode_exact (tbl : List (Nat × String)) (v : Nat) :
    bitmaskNames tbl v
      = (tbl.filter (fun e => decide (v &&& e.1 ≠ 0))).map Prod.snd ∧
    bitmaskNames [(1, "A"), (2, "B"), (4, "C"), (8, "D")] 5 = ["A", "C"] ∧
    (∀ s ∈ bitmaskNames tbl v, ∃ e ∈ tbl, e.2 = s ∧ v &&& e.1 ≠ 0) ∧
    config_attr_case VAConfigAttribRTFormat v
      = .start_array (some "rt_formats")
          :: (bitmaskNames rt_format_types v).map
               (fun s => .print_string none s)
          ++ [.end_array] := by
  have hmain := bitmaskNames_eq_filter tbl v
  refine ⟨hmain, by decide, ?_, rfl⟩
  intro s hs
  rw [hmain] at hs
  simp only [List.mem_map, List.mem_filter] at hs
  obtain ⟨e, ⟨he, hb⟩, hsnd⟩ := hs
  exact ⟨e, he, hsnd, by simpa using hb⟩

theorem bitmask_decode_exact_witness :
    bitmaskNames [(1, "A"), (2, "B"), (4, "C"), (8, "D")] 5 = ["A", "C"] :=
  (bitmask_decode_exact [] 0).2.1

theorem countCalls_nil (p : VACall → Bool) : countCalls [] p = 0 := rfl

theorem countEv_nil (p : Ev → Bool) : countEv [] p = 0 := rfl

theorem countCalls_map_op2 {α : Type} (l : List α) (g : α → WOp)
    (p : VACall → Bool) : countCalls (l.map (fun x => Ev.op (g x))) p = 0 := by
  induction l with
  | nil => rfl
  | cons x xs ih => simpa [List.map_cons, countCalls_cons_op] using ih

/-- dump_colour_standards makes no driver calls. -/
theorem colour_standards_calls (l : List Int) (p : VACall → Bool) :
    countCalls (dump_colour_standards l) p = 0 := by
  unfold dump_colour_standards
  refine countCalls_flatMap_zero l _ p ?_
  intro t
  unfold colour_standard_entry
  cases lookupName colour_types t <;>
    simp [countCalls_append, countCalls_cons_op, countCalls_nil]

set_option maxRecDepth 8000

theorem countCalls_ite (c : Prop) [Decidable c] (a b : List Ev)
    (p : VACall → Bool) :
    countCalls (if c then a else b) p
      = if c then countCalls a p else countCalls b p := by
  split <;> rfl

theorem countEv_ite (c : Prop) [Decidable c] (a b : List Ev)
    (p : Ev → Bool) :
    countEv (if c then a else b) p
      = if c then countEv a p else countEv b p := by
  split <;> rfl

/-- Calls made by dump_config_attributes: only the one batch attribute
query. -/
theorem dca_calls (drv : Driver) (pr e : Int) (q : VACall → Bool)
    (h1 : ∀ a b, q (.getConfigAttributes a b) = false) :
    countCalls (dump_config_attributes drv pr e).1 q = 0 := by
  unfold dump_config_attributes
  simp only []
  split_ifs <;>
    simp [countCalls_cons_call, countCalls_cons_err, errEv,
      countCalls_map_op, countCalls_nil, h1]

/-- Calls made by one surface-format bit probe: config creation and the two
surface-attribute queries only. -/
theorem surf_one_calls (drv : Driver) (pr e : Int) (rt : Nat)
    (q : VACall → Bool)
    (h1 : ∀ a b r, q (.createConfig a b r) = false)
    (h2 : ∀ r, q (.querySurfaceAttributesCount r) = false)
    (h3 : ∀ r, q (.querySurfaceAttributesList r) = false) :
    countCalls (surf_one drv pr e rt).1 q = 0 := by
  unfold surf_one
  simp only []
  split_ifs <;>
    simp [countCalls_cons_call, countCalls_cons_err, errEv,
      countCalls_map_op, countCalls_nil, h1, h2, h3]

theorem surf_bits_calls (drv : Driver) (pr e : Int) (rtf : Nat)
    (q : VACall → Bool)
    (h1 : ∀ a b r, q (.createConfig a b r) = false)
    (h2 : ∀ r, q (.querySurfaceAttributesCount r) = false)
    (h3 : ∀ r, q (.querySurfaceAttributesList r) = false) :
    ∀ bits, countCalls (surf_bits drv pr e rtf bits) q = 0 := by
  intro bits
  induction bits with
  | nil => rfl
  | cons b rest ih =>
      rw [surf_bits]
      simp only []
      split_ifs <;>
        simp [countCalls_append, countCalls_nil,
          surf_one_calls drv pr e _ q h1 h2 h3, ih]

/-- Calls made by dump_filter_caps: only capability queries. -/
theorem dump_filter_caps_calls (drv : Driver) (f : Int) (q : VACall → Bool)
    (h1 : ∀ g, q (.queryVideoProcFilterCaps g) = false) :
    countCalls (dump_filter_caps drv f) q = 0 := by
  unfold dump_filter_caps
  simp only []
  split_ifs <;>
    simp [countCalls_cons_call, countCalls_cons_err, errEv,
      countCalls_cons_op, countCalls_append, countCalls_map_op,
      countCalls_nil, h1]

/-- Calls made by the parameter-buffer probe: capability queries and buffer
creation only. -/
theorem probe_query_then_buffer_calls (drv : Driver) (f : Int)
    (qstat : Int) (qd : String) (cond : Bool) (bd : String)
    (q : VACall → Bool)
    (h1 : ∀ g, q (.queryVideoProcFilterCaps g) = false)
    (h2 : ∀ g, q (.createBuffer g) = false) :
    countCalls (probe_query_then_buffer drv f qstat qd cond bd).1 q = 0 := by
  unfold probe_query_then_buffer
  simp only []
  split_ifs <;>
    simp [countCalls_cons_call, countCalls_cons_err, errEv,
      countCalls_nil, h1, h2]

theorem filter_param_probe_calls (drv : Driver) (f : Int) (q : VACall → Bool)
    (h1 : ∀ g, q (.queryVideoProcFilterCaps g) = false)
    (h2 : ∀ g, q (.createBuffer g) = false) :
    countCalls (filter_param_probe drv f).1 q = 0 := by
  unfold filter_param_probe
  simp only []
  split_ifs <;>
    simp [probe_query_then_buffer_calls drv f _ _ _ _ q h1 h2,
      countCalls_cons_call, countCalls_cons_err, errEv,
      countCalls_nil, h1, h2]

/-- Calls made by dump_pipeline_caps: the pipeline query only. -/
theorem dump_pipeline_caps_calls (drv : Driver) (nb : Nat)
    (q : VACall → Bool)
    (h1 : ∀ m, q (.queryVideoProcPipelineCaps m) = false) :
    countCalls (dump_pipeline_caps drv nb) q = 0 := by
  unfold dump_pipeline_caps
  simp only []
  split_ifs <;>
    simp [countCalls_cons_call, countCalls_cons_err, errEv,
      countCalls_cons_op, countCalls_append, countCalls_map_op,
      countCalls_map_op2, countCalls_nil, colour_standards_calls, h1]

theorem dump_filter_pipelines_calls (drv : Driver) (f : Int)
    (q : VACall → Bool)
    (h1 : ∀ g, q (.queryVideoProcFilterCaps g) = false)
    (h2 : ∀ g, q (.createBuffer g) = false)
    (h3 : ∀ m, q (.queryVideoProcPipelineCaps m) = false)
    (h4 : q .destroyBuffer = false) :
    countCalls (dump_filter_pipelines drv f) q = 0 := by
  unfold dump_filter_pipelines
  simp only []
  split_ifs <;>
    simp [countCalls_append, countCalls_cons_call, countCalls_nil,
      filter_param_probe_calls drv f q h1 h2, dump_pipeline_caps_calls,
      h3, h4]

theorem filter_entry_calls (drv : Driver) (mask : Nat) (f : Int)
    (q : VACall → Bool)
    (h1 : ∀ g, q (.queryVideoProcFilterCaps g) = false)
    (h2 : ∀ g, q (.createBuffer g) = false)
    (h3 : ∀ m, q (.queryVideoProcPipelineCaps m) = false)
    (h4 : q .destroyBuffer = false) :
    countCalls (filter_entry drv mask f) q = 0 := by
  unfold filter_entry
  cases hx : lookupName filters f <;>
    simp [hx, countCalls_ite, countCalls_append, countCalls_cons_op,
      countCalls_nil, dump_filter_caps_calls drv f q h1,
      dump_filter_pipelines_calls drv f q h1 h2 h3 h4]

/-- Claim C7 counterexample: with aggregate mask 3 (two pixel-format-class
bits set), dump_filters issues exactly one config creation and one context
creation, the config taking the whole aggregate mask 3; no per-bit config
for mask 1 or mask 2 is ever created. -/
theorem single_filter_config_for_two_bits :
    countCalls (dump_filters drvOk 0 3) isCreateConfigC = 1 ∧
    countCalls (dump_filters drvOk 0 3) isCreateContextC = 1 ∧
    Ev.call (.createConfig VAProfileNone VAEntrypointVideoProc 3)
      ∈ dump_filters drvOk 0 3 ∧
    Ev.call (.createConfig VAProfileNone VAEntrypointVideoProc 1)
      ∉ dump_filters drvOk 0 3 ∧
    Ev.call (.createConfig VAProfileNone VAEntrypointVideoProc 2)
      ∉ dump_filters drvOk 0 3 := by
  decide

/-- The integer values printed with the "filter" tag. -/
def filterCodesOf (evs : List Ev) : List Int :=
  evs.filterMap (fun e => match e with
    | .op (.print_integer t v) => if t = some "filter" then some v else none
    | _ => none)

theorem filterCodesOf_append (a b : List Ev) :
    filterCodesOf (a ++ b) = filterCodesOf a ++ filterCodesOf b := by
  simp [filterCodesOf, List.filterMap_append]

/-- With the caps and pipeline sections unselected, one filter object
prints exactly its own code with the "filter" tag. -/
theorem filterCodesOf_entry (drv : Driver) (mask : Nat) (f : Int)
    (hc : DUMP mask DUMP_FILTER_CAPS = false)
    (hp : DUMP mask DUMP_PIPELINE_CAPS = false) :
    filterCodesOf (filter_entry drv mask f) = [f] := by
  unfold filter_entry
  rw [hc, hp]
  cases hx : lookupName filters f <;>
    simp [filterCodesOf, List.filterMap_append]

/-- dump_filters always issues exactly one vaCreateConfig call. -/
theorem dump_filters_one_config (drv : Driver) (mask : Nat) (rt : Nat) :
    countCalls (dump_filters drv mask rt) isCreateConfigC = 1 := by
  have hfe : ∀ f, countCalls (filter_entry drv mask f) isCreateConfigC = 0 :=
    fun f => filter_entry_calls drv mask f isCreateConfigC
      (fun _ => rfl) (fun _ => rfl) (fun _ => rfl) rfl
  unfold dump_filters
  simp only []
  split_ifs <;>
    simp [countCalls_cons_call, countCalls_cons_err, errEv,
      countCalls_cons_op, countCalls_append, countCalls_nil, isCreateConfigC,
      hfe, countCalls_flatMap_zero _ _ _ hfe]

/-- For an entry point other than VideoProc, no filter enumeration call is
ever issued from its object. -/
theorem entrypoint_entry_no_vpfilters (drv : Driver) (mask : Nat)
    (p e : Int) (he : e ≠ VAEntrypointVideoProc) :
    countCalls (entrypoint_entry drv mask p e) isQueryVPFiltersC = 0 := by
  have hb : (e == VAEntrypointVideoProc) = false := by simpa using he
  unfold entrypoint_entry
  simp only []
  split_ifs <;>
    simp_all [countCalls_append, countCalls_cons_op, countCalls_nil,
      countCalls_map_op, dump_surface_attributes,
      dca_calls drv p e isQueryVPFiltersC (fun _ _ => rfl),
      surf_bits_calls drv p e _ isQueryVPFiltersC
        (fun _ _ _ => rfl) (fun _ => rfl) (fun _ => rfl)]

/-- Claim C7 (amended): the filter pass creates exactly one ephemeral
configuration per pass, built from the whole aggregate pixel-format-class
mask (its creation is the pass's first driver call), not one per bit; on
the success path the enumerated filter list is the implicit None filter
followed by the device's reported filters; and no filter enumeration is
issued for any entry point other than video processing. -/
theorem filters_single_config_with_implicit_none (drv : Driver)
    (mask : Nat) (rt : Nat) :
    countCalls (dump_filters drv mask rt) isCreateConfigC = 1 ∧
    (callsOf (dump_filters drv mask rt)).head?
      = some (.createConfig VAProfileNone VAEntrypointVideoProc rt) ∧
    (DUMP mask DUMP_FILTER_CAPS = false →
     DUMP mask DUMP_PIPELINE_CAPS = false →
     drv.createConfig VAProfileNone VAEntrypointVideoProc rt
       = VA_STATUS_SUCCESS →
     drv.createContext = VA_STATUS_SUCCESS →
     (drv.queryVideoProcFilters).1 = VA_STATUS_SUCCESS →
     filterCodesOf (dump_filters drv mask rt)
       = VAProcFilterNone :: (drv.queryVideoProcFilters).2) ∧
    (∀ p e : Int, e ≠ VAEntrypointVideoProc →
      countCalls (entrypoint_entry drv mask p e) isQueryVPFiltersC = 0) := by
  refine ⟨dump_filters_one_config drv mask rt, rfl, ?_, ?_⟩
  · intro hc hp hcfg hctx hq
    unfold dump_filters
    simp only []
    rw [if_neg (by simp [hcfg]), if_neg (by simp [hctx]),
      if_neg (by simp [hq])]
    have hcodes : ∀ fl : List Int,
        filterCodesOf (fl.flatMap (filter_entry drv mask)) = fl := by
      intro fl
      induction fl with
      | nil => rfl
      | cons f rest ih =>
          rw [List.flatMap_cons, filterCodesOf_append, ih,
            filterCodesOf_entry drv mask f hc hp]
          rfl
    simp [filterCodesOf, List.filterMap_append] at hcodes ⊢
    simpa using hcodes (VAProcFilterNone :: (drv.queryVideoProcFilters).2)
  · exact fun p e he => entrypoint_entry_no_vpfilters drv mask p e he

theorem filters_single_config_with_implicit_none_witness :
    filterCodesOf (dump_filters drvOk 0 3) = [VAProcFilterNone] :=
  (filters_single_config_with_implicit_none drvOk 0 3).2.2.1
    (by decide) (by decide) (by decide) (by decide) (by decide)

theorem map_op_flatMap {α : Type} (l : List α) (g : α → List WOp) :
    (l.flatMap g).map Ev.op = l.flatMap (fun x => (g x).map Ev.op) := by
  induction l with
  | nil => rfl
  | cons x xs ih => simp [List.flatMap_cons, ih]

theorem dump_image_formats_calls (drv : Driver) (q : VACall → Bool)
    (h1 : q .maxNumImageFormats = false)
    (h2 : q .queryImageFormats = false) :
    countCalls (dump_image_formats drv) q = 0 := by
  unfold dump_image_formats
  simp only []
  split_ifs <;>
    simp [countCalls_cons_call, countCalls_cons_err, errEv,
      countCalls_map_op, countCalls_nil, h1, h2]

/-- One image-format object emits no "profiles"-tagged output. -/
theorem image_entry_tags (f : ImageFormat) :
    countEv ((image_format_entry f).map Ev.op) (isOpTagged "profiles") = 0 := by
  unfold image_format_entry image_format_fields
  split_ifs <;>
    simp [countEv_cons, countEv_append, countEv_nil, isOpTagged, tagOf]

theorem dump_image_formats_tags (drv : Driver) :
    countEv (dump_image_formats drv) (isOpTagged "profiles") = 0 := by
  unfold dump_image_formats
  simp only []
  split_ifs <;>
    simp [countEv_cons, countEv_nil, isOpTagged, errEv, map_op_flatMap,
      countEv_flatMap_zero _ _ _ image_entry_tags]

/-- Claim C5: with a selection mask containing only the image-formats flag,
the engine issues no profile, entry-point, attribute, surface-format,
config/context or filter query of any kind, and the document contains no
"profiles" key; an empty mask is normalized to all sections. -/
theorem image_formats_only_skips_traversal (drv : Driver) :
    countCalls (va_dump (2 ^ DUMP_IMAGE_FORMATS) drv) isTraversalQuery = 0 ∧
    countEv (va_dump (2 ^ DUMP_IMAGE_FORMATS) drv) (isOpTagged "profiles")
      = 0 ∧
    normalizeMask 0 = 2 ^ DUMP_MAX - 1 := by
  refine ⟨?_, ?_, rfl⟩
  · unfold va_dump
    simp only []
    rw [if_neg (by decide), if_pos (by decide), if_neg (by decide)]
    cases drv.vendorString <;>
      simp [countCalls_append, countCalls_cons_call, countCalls_cons_op,
        countCalls_nil, isTraversalQuery,
        dump_image_formats_calls drv isTraversalQuery rfl rfl]
  · unfold va_dump
    simp only []
    rw [if_neg (by decide), if_pos (by decide), if_neg (by decide)]
    cases drv.vendorString <;>
      simp [countEv_append, countEv_cons, countEv_nil, isOpTagged, tagOf,
        dump_image_formats_tags drv]

theorem countEv_map_op2_zero {α : Type} (l : List α) (g : α → WOp)
    (t : String) (h : ∀ x, tagOf (g x) ≠ some t) :
    countEv (l.map (fun x => Ev.op (g x))) (isOpTagged t) = 0 := by
  induction l with
  | nil => rfl
  | cons x xs ih =>
      rw [List.map_cons, countEv_cons]
      simp [isOpTagged, h x, ih]

theorem tag_sf_colour_entry (t : Int) :
    countEv (colour_standard_entry t) (isOpTagged "surface_formats") = 0 := by
  unfold colour_standard_entry
  cases lookupName colour_types t <;>
    simp [countEv_cons, countEv_append, countEv_nil, isOpTagged, tagOf]

theorem tag_sf_colour_standards (l : List Int) :
    countEv (dump_colour_standards l) (isOpTagged "surface_formats") = 0 := by
  unfold dump_colour_standards
  exact countEv_flatMap_zero l _ _ tag_sf_colour_entry

theorem tag_sf_deint (t : Int) :
    countEv ((deint_cap_entry t).map Ev.op)
      (isOpTagged "surface_formats") = 0 := by
  unfold deint_cap_entry
  cases lookupName deinterlacer_types t <;>
    simp [countEv_cons, countEv_append, countEv_nil, isOpTagged, tagOf]

theorem tag_sf_range (tbl : List (Int × String)) (c : Int × FRange) :
    countEv ((range_cap_entry tbl c).map Ev.op)
      (isOpTagged "surface_formats") = 0 := by
  unfold range_cap_entry
  cases lookupName tbl c.1 <;>
    simp [countEv_cons, countEv_append, countEv_nil, isOpTagged, tagOf]

theorem tag_zero_untagged_string (l : List String) (t : String) :
    countEv (l.map (fun s => Ev.op (WOp.print_string none s)))
      (isOpTagged t) = 0 :=
  countEv_map_op2_zero l _ t (fun _ => by simp [tagOf])

theorem tag_zero_untagged_string_comp (l : List String) (t : String) :
    countEv (l.map (Ev.op ∘ fun s => WOp.print_string none s))
      (isOpTagged t) = 0 :=
  tag_zero_untagged_string l t

theorem tag_zero_untagged_int (l : List Int) (t : String) :
    countEv (l.map (fun m => Ev.op (WOp.print_integer none m)))
      (isOpTagged t) = 0 :=
  countEv_map_op2_zero l _ t (fun _ => by simp [tagOf])

theorem tag_zero_untagged_int_comp (l : List Int) (t : String) :
    countEv (l.map (Ev.op ∘ fun m => WOp.print_integer none m))
      (isOpTagged t) = 0 :=
  tag_zero_untagged_int l t

theorem tag_zero_fourcc (l : List Int) (t : String) :
    countEv (l.map (fun f => Ev.op (WOp.print_string none (fourccStr f))))
      (isOpTagged t) = 0 :=
  countEv_map_op2_zero l _ t (fun _ => by simp [tagOf])

theorem tag_zero_fourcc_comp (l : List Int) (t : String) :
    countEv (l.map (Ev.op ∘ fun f => WOp.print_string none (fourccStr f)))
      (isOpTagged t) = 0 :=
  tag_zero_fourcc l t

theorem tag_sf_hdr (c : Int × Nat) :
    countEv ((hdr_cap_entry c).map Ev.op)
      (isOpTagged "surface_formats") = 0 := by
  unfold hdr_cap_entry
  cases lookupName hdr_metadata_types c.1 <;>
    simp [countEv_cons, countEv_append, countEv_nil, isOpTagged, tagOf,
      tag_zero_untagged_string, tag_zero_untagged_string_comp]

theorem tag_sf_lut (c : LutCap) :
    countEv ((lut_cap_entry c).map Ev.op)
      (isOpTagged "surface_formats") = 0 := by
  unfold lut_cap_entry
  simp [countEv_cons, countEv_append, countEv_nil, isOpTagged, tagOf,
    tag_zero_untagged_string, tag_zero_untagged_string_comp,
    tag_zero_untagged_int, tag_zero_untagged_int_comp]

theorem tag_sf_filter_caps (drv : Driver) (f : Int) :
    countEv (dump_filter_caps drv f) (isOpTagged "surface_formats") = 0 := by
  unfold dump_filter_caps
  simp only []
  split_ifs <;>
    simp [countEv_cons, countEv_append, countEv_nil, isOpTagged, tagOf,
      errEv, map_op_flatMap,
      countEv_flatMap_zero _ _ _ tag_sf_deint,
      countEv_flatMap_zero _ _ _ (tag_sf_range colour_balance_types),
      countEv_flatMap_zero _ _ _ (tag_sf_range total_colour_correction_types),
      countEv_flatMap_zero _ _ _ tag_sf_hdr,
      countEv_flatMap_zero _ _ _ tag_sf_lut]

theorem tag_sf_probe_helper (drv : Driver) (f : Int) (qstat : Int)
    (qd : String) (cond : Bool) (bd : String) :
    countEv (probe_query_then_buffer drv f qstat qd cond bd).1
      (isOpTagged "surface_formats") = 0 := by
  unfold probe_query_then_buffer
  simp only []
  split_ifs <;>
    simp [countEv_cons, countEv_nil, isOpTagged, errEv]

theorem tag_sf_probe (drv : Driver) (f : Int) :
    countEv (filter_param_probe drv f).1
      (isOpTagged "surface_formats") = 0 := by
  unfold filter_param_probe
  simp only []
  split_ifs <;>
    simp [tag_sf_probe_helper, countEv_cons, countEv_nil, isOpTagged, errEv]

theorem tag_sf_pipeline_caps (drv : Driver) (nb : Nat) :
    countEv (dump_pipeline_caps drv nb)
      (isOpTagged "surface_formats") = 0 := by
  unfold dump_pipeline_caps
  simp only []
  split_ifs <;>
    simp [countEv_cons, countEv_append, countEv_nil, isOpTagged, tagOf,
      errEv, tag_sf_colour_standards,
      tag_zero_untagged_string, tag_zero_untagged_string_comp,
      tag_zero_fourcc, tag_zero_fourcc_comp]

theorem tag_sf_filter_pipelines (drv : Driver) (f : Int) :
    countEv (dump_filter_pipelines drv f)
      (isOpTagged "surface_formats") = 0 := by
  unfold dump_filter_pipelines
  simp only []
  split_ifs <;>
    simp [countEv_append, countEv_cons, countEv_nil, isOpTagged,
      tag_sf_probe, tag_sf_pipeline_caps]

theorem tag_sf_filter_entry (drv : Driver) (mask : Nat) (f : Int) :
    countEv (filter_entry drv mask f) (isOpTagged "surface_formats") = 0 := by
  unfold filter_entry
  cases hx : lookupName filters f <;>
    simp [hx, countEv_ite, countEv_append, countEv_cons, countEv_nil,
      isOpTagged, tagOf, tag_sf_filter_caps, tag_sf_filter_pipelines]

theorem tag_sf_dump_filters (drv : Driver) (mask : Nat) (rt : Nat) :
    countEv (dump_filters drv mask rt)
      (isOpTagged "surface_formats") = 0 := by
  have hfe := tag_sf_filter_entry drv mask
  unfold dump_filters
  simp only []
  split_ifs <;>
    simp [countEv_cons, countEv_append, countEv_nil, isOpTagged, tagOf,
      errEv, hfe, countEv_flatMap_zero _ _ _ hfe]

theorem dump_filters_calls (drv : Driver) (mask : Nat) (rt : Nat)
    (q : VACall → Bool)
    (h0 : ∀ a b r, q (.createConfig a b r) = false)
    (h1 : q .createContext = false)
    (h2 : q .queryVideoProcFilters = false)
    (h3 : q .destroyContext = false)
    (h4 : q .destroyConfig = false)
    (h5 : ∀ g, q (.queryVideoProcFilterCaps g) = false)
    (h6 : ∀ g, q (.createBuffer g) = false)
    (h7 : ∀ m, q (.queryVideoProcPipelineCaps m) = false)
    (h8 : q .destroyBuffer = false) :
    countCalls (dump_filters drv mask rt) q = 0 := by
  have hfe : ∀ f, countCalls (filter_entry drv mask f) q = 0 :=
    fun f => filter_entry_calls drv mask f q h5 h6 h7 h8
  unfold dump_filters
  simp only []
  split_ifs <;>
    simp [countCalls_cons_call, countCalls_cons_err, errEv,
      countCalls_cons_op, countCalls_append, countCalls_nil,
      h0, h1, h2, h3, h4, hfe, countCalls_flatMap_zero _ _ _ hfe]

/-- dump_filters starts with its config-creation call, built from whatever
rt_format mask it was given. -/
theorem dump_filters_head_mem (drv : Driver) (mask : Nat) (rt : Nat) :
    Ev.call (.createConfig VAProfileNone VAEntrypointVideoProc rt)
      ∈ dump_filters drv mask rt := by
  unfold dump_filters
  exact List.mem_cons_self _ _

/-- Claim C10 counterexample: with attributes unselected but the filters
flag set (mask 16), the VideoProc entry point still runs the filter pass --
with an all-success driver the entry's object contains a "filters" array
even though no attribute pass ran. -/
theorem filters_array_without_attributes :
    DUMP 16 DUMP_ATTRIBUTES = false ∧
    DUMP 16 DUMP_FILTERS = true ∧
    Ev.op (.start_array (some "filters")) ∈ entrypoint_entry drvOk 16 6 10 := by
  decide

theorem tag_sf_name_ops (e : Int) :
    countEv ((entrypoint_name_ops e).map Ev.op)
      (isOpTagged "surface_formats") = 0 := by
  unfold entrypoint_name_ops
  cases lookupNameDesc entrypoints e <;>
    simp [countEv_cons, countEv_nil, isOpTagged, tagOf]

/-- Claim C10 (amended): without the attributes flag, rt_formats stays 0,
so the entry point emits no surface_formats array and issues no
surface-attribute query even when the surface-formats flag is set; but the
filter pass is still invoked for the video-processing entry point whenever
the filters flag is set, with a zero pixel-format mask, its config-creation
call carrying rt_format 0. -/
theorem no_attributes_no_surface_formats (drv : Driver) (mask : Nat)
    (p e : Int) (hA : DUMP mask DUMP_ATTRIBUTES = false) :
    countEv (entrypoint_entry drv mask p e)
      (isOpTagged "surface_formats") = 0 ∧
    countCalls (entrypoint_entry drv mask p e) isSurfaceQueryC = 0 ∧
    (DUMP mask DUMP_FILTERS = true → e = VAEntrypointVideoProc →
      Ev.call (.createConfig VAProfileNone VAEntrypointVideoProc 0)
        ∈ entrypoint_entry drv mask p e) := by
  refine ⟨?_, ?_, ?_⟩
  · unfold entrypoint_entry
    rw [hA]
    simp [countEv_append, countEv_cons, countEv_nil, countEv_ite,
      isOpTagged, tagOf, tag_sf_name_ops, tag_sf_dump_filters]
  · unfold entrypoint_entry
    rw [hA]
    simp [countCalls_append, countCalls_cons_op, countCalls_nil,
      countCalls_ite, countCalls_map_op,
      dump_filters_calls drv mask _ isSurfaceQueryC
        (fun _ _ _ => rfl) rfl rfl rfl rfl (fun _ => rfl) (fun _ => rfl)
        (fun _ => rfl) rfl]
  · intro hF he
    subst he
    unfold entrypoint_entry
    rw [hA]
    have hm := dump_filters_head_mem drv mask 0
    simp [hF, List.mem_append, hm]

theorem no_attributes_no_surface_formats_witness :
    DUMP 16 DUMP_ATTRIBUTES = false ∧
    countEv (entrypoint_entry drvOk 16 6 10)
      (isOpTagged "surface_formats") = 0 :=
  ⟨by decide,
    (no_attributes_no_surface_formats drvOk 16 6 10 (by decide)).1⟩
